import Mathlib

/-!
# Tutorial21_RayTracing: acceleration structures and the shader binding table

A shallow embedding of `Tutorial21_RayTracing.cpp`.  The sample object is a record of
its member variables, every member function is a state transformer, and every call
into the render device or the device context is appended to a command log, so that
properties of the issued commands can be stated over the log.

* Floating point arithmetic, `std::sin`, `std::cos` and the matrix helpers of the
  engine math library are a parameter (`MathOps`): the embedding builds exactly the
  expression the source builds, over an arbitrary carrier.
* Constants of headers that are not part of the translation unit (`NumTextures`,
  the geometry masks, the ray indices, `sizeof` values) and the values the device
  reports are a parameter (`Platform`).
* A smart pointer member is an `Option`; calling through a null pointer is a fault
  that ends the run (`Outcome.fault`), the log keeps what was issued before it.
* The device honours every creation request with a new object, which is what the
  `VERIFY_EXPR` after each creation asserts; `m_pDevice` and `m_pImmediateContext`
  are valid throughout.
* Descriptor fields that only select usage, bind flags or state transition modes
  are left out of the descriptors.
-/

namespace Tutorial21

/-- Identity of an object created by the render device. -/
abbrev Handle := Nat

/-- The float operations and the 3x3 matrix helpers used by the sample, over a
carrier `F` for `float` and `M` for `float3x3`. -/
structure MathOps (F M : Type) where
  /-- conversion `int -> float` -/
  ofInt : Int → F
  /-- a decimal literal such as `5.0f` -/
  lit : ℚ → F
  PI_F : F
  add : F → F → F
  mul : F → F → F
  div : F → F → F
  cos : F → F
  sin : F → F
  /-- `float3x3::RotationY` -/
  RotationY : F → M
  /-- `float3x3::Scale` -/
  Scale : F → F → F → M
  /-- `operator*` of `float3x3` -/
  matMul : M → M → M
  /-- rotation part of a default constructed `InstanceMatrix` -/
  identity : M

/-- Values reported by `CreateGeometryPrimitive` for the cube. -/
structure GeometryPrimitiveInfo where
  NumVertices : Nat
  NumIndices : Nat
deriving DecidableEq, Repr

/-- Result of `GetScratchBufferSizes`. -/
structure ScratchBufferSizes where
  Build : Nat
  Update : Nat
deriving DecidableEq, Repr

/-- Everything the translation unit takes from outside: header constants, `sizeof`
values, the adapter information and the sizes the device reports. -/
structure Platform (F M : Type) where
  ops : MathOps F M
  NumTextures : Nat
  OPAQUE_GEOM_MASK : Nat
  TRANSPARENT_GEOM_MASK : Nat
  HIT_GROUP_STRIDE : Nat
  PRIMARY_RAY_INDEX : Nat
  SHADOW_RAY_INDEX : Nat
  TLAS_INSTANCE_DATA_SIZE : Nat
  RAY_TRACING_CAP_FLAG_STANDALONE_SHADERS : Nat
  sizeofProceduralGeomIntersectionAttribs : Nat
  sizeofPrimaryRayPayload : Nat
  sizeofShadowRayPayload : Nat
  sizeofCubeAttribs : Nat
  sizeofBoxAttribs : Nat
  sizeofConstants : Nat
  /-- `GetAdapterInfo().RayTracing.CapFlags` -/
  CapFlags : Nat
  /-- `GetAdapterInfo().RayTracing.MaxRecursionDepth` (a `Uint32`) -/
  DeviceMaxRecursionDepth : Nat
  CubeGeoInfo : GeometryPrimitiveInfo
  blasScratch : ScratchBufferSizes
  tlasScratch : ScratchBufferSizes

structure TopLevelASDesc where
  Name : String
  MaxInstanceCount : Nat
  /-- `RAYTRACING_BUILD_AS_ALLOW_UPDATE` is set in `Flags` -/
  AllowUpdate : Bool
  /-- `RAYTRACING_BUILD_AS_PREFER_FAST_TRACE` is set in `Flags` -/
  PreferFastTrace : Bool
deriving DecidableEq, Repr

/-- A top-level acceleration structure object: its identity and the descriptor it
was created with. -/
structure TopLevelAS where
  id : Handle
  Desc : TopLevelASDesc
deriving DecidableEq, Repr

structure BufferDesc where
  Name : String
  Size : Nat
deriving DecidableEq, Repr

/-- A buffer object: its identity and the descriptor it was created with. -/
structure Buffer where
  id : Handle
  Desc : BufferDesc
deriving DecidableEq, Repr

/-- The 3x4 instance matrix: the 3x3 part written by `SetRotation` and the column
written by `SetTranslation`. -/
structure InstanceMatrix (F M : Type) where
  rotation : M
  translation : F × F × F

def InstanceMatrix.SetTranslation {F M : Type} (T : InstanceMatrix F M) (x y z : F) :
    InstanceMatrix F M :=
  { T with translation := (x, y, z) }

def InstanceMatrix.SetRotation {F M : Type} (T : InstanceMatrix F M) (m : M) :
    InstanceMatrix F M :=
  { T with rotation := m }

/-- One element of the instance array handed to `BuildTLAS`, with the fields the
source writes.  `InstanceName` is a `const char*` (null is `none`), `Mask` a `Uint8`,
`CustomId` a `Uint32`. -/
structure TLASBuildInstanceData (F M : Type) where
  InstanceName : Option String
  pBLAS : Option Handle
  Transform : InstanceMatrix F M
  CustomId : Nat
  Mask : Nat

/-- A default constructed array element, as the engine declares it: null name, null
BLAS, identity transform, custom id 0, mask `0xFF`. -/
def TLASBuildInstanceData.init {F M : Type} (ops : MathOps F M) : TLASBuildInstanceData F M :=
  { InstanceName := none
    pBLAS := none
    Transform := { rotation := ops.identity, translation := (ops.lit 0, ops.lit 0, ops.lit 0) }
    CustomId := 0
    Mask := 0xFF }

structure BuildTLASAttribs (F M : Type) where
  pTLAS : Option TopLevelAS
  Update : Bool
  pScratchBuffer : Option Buffer
  pInstanceBuffer : Option Buffer
  pInstances : List (TLASBuildInstanceData F M)
  InstanceCount : Nat
  HitGroupStride : Nat

structure BLASTriangleDesc where
  GeometryName : String
  MaxVertexCount : Nat
  VertexValueType : String
  VertexComponentCount : Nat
  MaxPrimitiveCount : Nat
  IndexType : String
deriving DecidableEq, Repr

structure BLASBuildTriangleData where
  GeometryName : String
  pVertexBuffer : Option Handle
  VertexStride : Nat
  VertexCount : Nat
  VertexValueType : String
  VertexComponentCount : Nat
  pIndexBuffer : Option Handle
  PrimitiveCount : Nat
  IndexType : String
deriving DecidableEq, Repr

structure BLASBoundingBoxDesc where
  GeometryName : String
  MaxBoxCount : Nat
deriving DecidableEq, Repr

structure BLASBuildBoundingBoxData where
  GeometryName : String
  BoxCount : Nat
  BoxStride : Nat
  pBoxBuffer : Option Buffer
deriving DecidableEq, Repr

/-- The descriptor passed to `CreateBLAS`. -/
structure BottomLevelASDesc where
  Name : String
  Triangles : List BLASTriangleDesc
  Boxes : List BLASBoundingBoxDesc
deriving DecidableEq, Repr

structure BuildBLASAttribs where
  pBLAS : Option Handle
  TriangleData : List BLASBuildTriangleData
  BoxData : List BLASBuildBoundingBoxData
  pScratchBuffer : Option Buffer
deriving DecidableEq, Repr

/-- The part of `RayTracingPipelineStateCreateInfoX` the sample fills in. -/
structure RayTracingPSOCreateInfo where
  Name : String
  GeneralShaders : List String
  TriangleHitShaders : List String
  ProceduralHitShaders : List String
  /-- a `Uint8` -/
  MaxRecursionDepth : Nat
  ShaderRecordSize : Nat
  MaxAttributeSize : Nat
  MaxPayloadSize : Nat
deriving DecidableEq, Repr

structure TraceRaysAttribs where
  DimensionX : Nat
  DimensionY : Nat
  pSBT : Option Handle
deriving DecidableEq, Repr

structure TextureDesc where
  Name : String
  Width : Nat
  Height : Nat
deriving DecidableEq, Repr

/-- A call into the render device, the device context or a device object. -/
inductive Cmd (F M : Type) where
  | Unsupported (msg : String)
  | CreateBuffer (desc : BufferDesc)
  | CreateShader (name : String)
  | CreateGraphicsPipelineState (name : String)
  | CreateRayTracingPipelineState (info : RayTracingPSOCreateInfo)
  | CreateShaderResourceBinding (pso : Handle)
  | SetVariable (srb : Handle) (stage : String) (name : String)
  | CreateTextureFromFile (file : String)
  | TransitionResourceStates (count : Nat)
  | CreateGeometryPrimitiveBuffers
  | CreateBLAS (desc : BottomLevelASDesc)
  | BuildBLAS (attribs : BuildBLASAttribs)
  | CreateTLAS (desc : TopLevelASDesc)
  | BuildTLAS (attribs : BuildTLASAttribs F M)
  | CreateSBT (pso : Option Handle)
  | BindRayGenShader (group : String)
  | BindMissShader (group : String) (missIndex : Nat)
  | BindHitGroupForInstance (tlas : Option TopLevelAS) (instanceName : String)
      (rayOffset : Nat) (group : String)
  | BindHitGroupForTLAS (tlas : Option TopLevelAS) (rayOffset : Nat) (group : Option String)
  | UpdateSBT (sbt : Handle)
  | UpdateBuffer (buffer : Option Buffer)
  | SetPipelineState (pso : Option Handle)
  | CommitShaderResources (srb : Handle)
  | TraceRays (attribs : TraceRaysAttribs)
  | SetRenderTargets
  | Draw (numVertices : Nat)
  | CreateTexture (desc : TextureDesc)

/-- The member variables of `Tutorial21_RayTracing` that the embedded functions read
or write, the command log and the next free object identity of the device. -/
structure State (F M : Type) where
  m_ConstantsCB : Option Buffer
  m_CubeAttribsCB : Option Buffer
  m_BoxAttribsCB : Option Buffer
  m_pImageBlitPSO : Option Handle
  m_pImageBlitSRB : Option Handle
  m_pRayTracingPSO : Option Handle
  m_pRayTracingSRB : Option Handle
  m_pCubeBLAS : Option Handle
  m_pProceduralBLAS : Option Handle
  m_pTLAS : Option TopLevelAS
  m_ScratchBuffer : Option Buffer
  m_InstanceBuffer : Option Buffer
  m_pSBT : Option Handle
  m_pColorRT : Option TextureDesc
  /-- a `Uint32` -/
  m_MaxRecursionDepth : Nat
  m_AnimationTime : F
  /-- `m_Constants.MaxRecursion` -/
  m_Constants_MaxRecursion : Nat
  log : List (Cmd F M)
  nextHandle : Handle

/-- A call through a null pointer. -/
inductive Fault where
  | nullDeref (pointer : String)
deriving DecidableEq, Repr

/-- Result of running a member function: the state reached and, when the run ended
in a fault, the fault. -/
structure Outcome (F M : Type) where
  state : State F M
  fault : Option Fault

def Outcome.ok {F M : Type} (s : State F M) : Outcome F M :=
  { state := s, fault := none }

def Outcome.crash {F M : Type} (s : State F M) (pointer : String) : Outcome F M :=
  { state := s, fault := some (Fault.nullDeref pointer) }

/-- Sequencing: the next statement runs only when no fault has occurred. -/
def Outcome.andThen {F M : Type} (o : Outcome F M) (f : State F M → Outcome F M) :
    Outcome F M :=
  match o.fault with
  | none => f o.state
  | some _ => o

/-- Append a command to the log. -/
def State.emit {F M : Type} (s : State F M) (c : Cmd F M) : State F M :=
  { s with log := s.log ++ [c] }

/-- Take the next free object identity. -/
def State.fresh {F M : Type} (s : State F M) : Handle × State F M :=
  (s.nextHandle, { s with nextHandle := s.nextHandle + 1 })

/-- In-place access `auto& x = arr[i]; ...` to an element of a C array. -/
def updateAt {α : Type} (arr : List α) (i : Nat) (f : α → α) : List α :=
  match arr[i]? with
  | some a => arr.set i (f a)
  | none => arr

def NumLocalCubes : Nat := 16

def NumLocalSpheres : Nat := 16

/-- `NumLocalCubes + NumLocalSpheres + 2`, ground + glass. -/
def NumInstances : Nat := NumLocalCubes + NumLocalSpheres + 2

/-- Body of the loop "Cubes around circle" of `UpdateTLAS`.  The assignment to
`InstanceName` is commented out in the source, so the name is not written. -/
def cubeBody {F M : Type} (P : Platform F M) (s : State F M) (i : Nat)
    (inst : TLASBuildInstanceData F M) : TLASBuildInstanceData F M :=
  let o := P.ops
  let inst := { inst with CustomId := i % P.NumTextures }
  let inst := { inst with pBLAS := s.m_pCubeBLAS }
  let inst := { inst with Mask := P.OPAQUE_GEOM_MASK % 256 }
  let angle := o.div (o.mul (o.mul (o.ofInt 2) o.PI_F) (o.ofInt i)) (o.ofInt NumLocalCubes)
  let radius := o.lit 5
  let x := o.mul (o.cos angle) radius
  let y := o.mul (o.sin (o.add s.m_AnimationTime (o.ofInt i))) (o.lit 1)
  let z := o.mul (o.sin angle) radius
  let inst := { inst with Transform := inst.Transform.SetTranslation x y z }
  { inst with Transform := inst.Transform.SetRotation (o.RotationY (o.add angle s.m_AnimationTime)) }

/-- Body of the loop "Spheres around larger circle" of `UpdateTLAS`.  The assignment
to `InstanceName` is commented out in the source, so the name is not written. -/
def sphereBody {F M : Type} (P : Platform F M) (s : State F M) (i : Nat)
    (inst : TLASBuildInstanceData F M) : TLASBuildInstanceData F M :=
  let o := P.ops
  let inst := { inst with CustomId := 0 }
  let inst := { inst with pBLAS := s.m_pProceduralBLAS }
  let inst := { inst with Mask := P.OPAQUE_GEOM_MASK % 256 }
  let angle := o.div (o.mul (o.mul (o.ofInt 2) o.PI_F) (o.ofInt i)) (o.ofInt NumLocalSpheres)
  let radius := o.lit 7
  let x := o.mul (o.cos angle) radius
  let z := o.mul (o.sin angle) radius
  { inst with Transform := inst.Transform.SetTranslation x (o.lit (-2)) z }

/-- The block "Ground" of `UpdateTLAS`. -/
def groundBody {F M : Type} (P : Platform F M) (s : State F M)
    (g : TLASBuildInstanceData F M) : TLASBuildInstanceData F M :=
  let o := P.ops
  let g := { g with InstanceName := some "Ground Instance" }
  let g := { g with pBLAS := s.m_pCubeBLAS }
  let g := { g with Mask := P.OPAQUE_GEOM_MASK % 256 }
  let rot := o.Scale (o.lit 100) (o.lit (1 / 10)) (o.lit 100)
  let g := { g with Transform := g.Transform.SetRotation rot }
  { g with Transform := g.Transform.SetTranslation (o.lit 0) (o.lit (-6)) (o.lit 0) }

/-- The block "Glass cube" of `UpdateTLAS`. -/
def glassBody {F M : Type} (P : Platform F M) (s : State F M)
    (gl : TLASBuildInstanceData F M) : TLASBuildInstanceData F M :=
  let o := P.ops
  let gl := { gl with InstanceName := some "Glass Instance" }
  let gl := { gl with pBLAS := s.m_pCubeBLAS }
  let gl := { gl with Mask := P.TRANSPARENT_GEOM_MASK % 256 }
  let rot := o.matMul (o.Scale (o.lit (3 / 2)) (o.lit (3 / 2)) (o.lit (3 / 2)))
    (o.RotationY (o.mul (o.mul s.m_AnimationTime o.PI_F) (o.lit (1 / 4))))
  let gl := { gl with Transform := gl.Transform.SetRotation rot }
  { gl with Transform := gl.Transform.SetTranslation (o.lit 3) (o.lit (-4)) (o.lit (-5)) }

/-- The local array `Instances[NumInstances]` of `UpdateTLAS` as it stands when
`BuildTLAS` is called. -/
def Instances {F M : Type} (P : Platform F M) (s : State F M) :
    List (TLASBuildInstanceData F M) :=
  let arr := List.replicate NumInstances (TLASBuildInstanceData.init P.ops)
  let arr := (List.range NumLocalCubes).foldl
    (fun arr i => updateAt arr i (cubeBody P s i)) arr
  let arr := (List.range NumLocalSpheres).foldl
    (fun arr i => updateAt arr (NumLocalCubes + i) (sphereBody P s i)) arr
  let arr := updateAt arr (NumLocalCubes + NumLocalSpheres) (groundBody P s)
  updateAt arr (NumLocalCubes + NumLocalSpheres + 1) (glassBody P s)

/-- The block `if (!m_pTLAS)` of `UpdateTLAS`; the second component is the value
of the local `NeedUpdate` after it. -/
def UpdateTLAS_createTLAS {F M : Type} (s : State F M) (NeedUpdate : Bool) :
    Outcome F M × Bool :=
  match s.m_pTLAS with
  | some _ => (Outcome.ok s, NeedUpdate)
  | none =>
    let TLASDesc : TopLevelASDesc :=
      { Name := "TLAS", MaxInstanceCount := NumInstances, AllowUpdate := true,
        PreferFastTrace := true }
    let (h, s) := s.fresh
    let s := { (s.emit (Cmd.CreateTLAS TLASDesc)) with m_pTLAS := some ⟨h, TLASDesc⟩ }
    let NeedUpdate := false
    match s.m_pRayTracingSRB with
    | none => (Outcome.crash s "m_pRayTracingSRB", NeedUpdate)
    | some srb =>
      let s := s.emit (Cmd.SetVariable srb "SHADER_TYPE_RAY_GEN" "g_TLAS")
      let s := s.emit (Cmd.SetVariable srb "SHADER_TYPE_RAY_CLOSEST_HIT" "g_TLAS")
      (Outcome.ok s, NeedUpdate)

/-- The block `if (!m_ScratchBuffer)` of `UpdateTLAS`. -/
def UpdateTLAS_createScratch {F M : Type} (P : Platform F M) (s : State F M) : Outcome F M :=
  match s.m_ScratchBuffer with
  | some _ => Outcome.ok s
  | none =>
    match s.m_pTLAS with
    | none => Outcome.crash s "m_pTLAS"
    | some _ =>
      let B : BufferDesc :=
        { Name := "TLAS Scratch Buffer", Size := max P.tlasScratch.Build P.tlasScratch.Update }
      let (h, s) := s.fresh
      Outcome.ok { (s.emit (Cmd.CreateBuffer B)) with m_ScratchBuffer := some ⟨h, B⟩ }

/-- The block `if (!m_InstanceBuffer)` of `UpdateTLAS`. -/
def UpdateTLAS_createInstanceBuffer {F M : Type} (P : Platform F M) (s : State F M) :
    Outcome F M :=
  match s.m_InstanceBuffer with
  | some _ => Outcome.ok s
  | none =>
    let B : BufferDesc :=
      { Name := "TLAS Instance Buffer", Size := P.TLAS_INSTANCE_DATA_SIZE * NumInstances }
    let (h, s) := s.fresh
    Outcome.ok { (s.emit (Cmd.CreateBuffer B)) with m_InstanceBuffer := some ⟨h, B⟩ }

/-- The attributes `UpdateTLAS` passes to `BuildTLAS`. -/
def UpdateTLAS_attribs {F M : Type} (P : Platform F M) (s : State F M) (NeedUpdate : Bool) :
    BuildTLASAttribs F M :=
  { pTLAS := s.m_pTLAS
    Update := NeedUpdate
    pScratchBuffer := s.m_ScratchBuffer
    pInstanceBuffer := s.m_InstanceBuffer
    pInstances := Instances P s
    InstanceCount := NumInstances
    HitGroupStride := P.HIT_GROUP_STRIDE }

/-- `Tutorial21_RayTracing::UpdateTLAS`. -/
def UpdateTLAS {F M : Type} (P : Platform F M) (s : State F M) : Outcome F M :=
  let NeedUpdate := true
  let r := UpdateTLAS_createTLAS s NeedUpdate
  r.1.andThen fun s =>
  (UpdateTLAS_createScratch P s).andThen fun s =>
  (UpdateTLAS_createInstanceBuffer P s).andThen fun s =>
  Outcome.ok (s.emit (Cmd.BuildTLAS (UpdateTLAS_attribs P s r.2)))

/-- `Tutorial21_RayTracing::CreateGraphicsPSO`. -/
def CreateGraphicsPSO {F M : Type} (s : State F M) : Outcome F M :=
  let s := s.emit (Cmd.CreateShader "Image blit VS")
  let s := s.emit (Cmd.CreateShader "Image blit PS")
  let (pso, s) := s.fresh
  let s := { (s.emit (Cmd.CreateGraphicsPipelineState "Image blit PSO")) with
    m_pImageBlitPSO := some pso }
  let (srb, s) := s.fresh
  Outcome.ok { (s.emit (Cmd.CreateShaderResourceBinding pso)) with m_pImageBlitSRB := some srb }

/-- The first statement of `CreateRayTracingPSO`:
`m_MaxRecursionDepth = std::min(m_MaxRecursionDepth, ...RayTracing.MaxRecursionDepth)`,
both operands `Uint32`. -/
def clampRecursionDepth {F M : Type} (P : Platform F M) (s : State F M) : State F M :=
  { s with m_MaxRecursionDepth := min s.m_MaxRecursionDepth P.DeviceMaxRecursionDepth }

/-- The create info `CreateRayTracingPSO` has filled in when it creates the pipeline;
`s` is the state after the clamp.  `static_cast<Uint8>` is `% 256`, `sizeof(float2)`
is 8. -/
def RayTracingPSOInfo {F M : Type} (P : Platform F M) (s : State F M) :
    RayTracingPSOCreateInfo :=
  { Name := "Ray tracing PSO"
    GeneralShaders := ["Main", "PrimaryMiss", "ShadowMiss"]
    TriangleHitShaders := ["CubePrimaryHit", "GroundHit", "GlassPrimaryHit"]
    ProceduralHitShaders := ["SpherePrimaryHit", "SphereShadowHit"]
    MaxRecursionDepth := s.m_MaxRecursionDepth % 256
    ShaderRecordSize := 0
    MaxAttributeSize := max 8 P.sizeofProceduralGeomIntersectionAttribs
    MaxPayloadSize := max P.sizeofPrimaryRayPayload P.sizeofShadowRayPayload }

/-- `Tutorial21_RayTracing::CreateRayTracingPSO`. -/
def CreateRayTracingPSO {F M : Type} (P : Platform F M) (s : State F M) : Outcome F M :=
  let s := clampRecursionDepth P s
  let shaders := ["Ray tracing RG", "Primary ray miss shader", "Shadow ray miss shader",
    "Cube primary ray closest hit shader", "Ground primary ray closest hit shader",
    "Glass primary ray closest hit shader", "Sphere primary ray closest hit shader",
    "Sphere intersection shader"]
  let s := shaders.foldl (fun s n => s.emit (Cmd.CreateShader n)) s
  let (pso, s) := s.fresh
  let s := { (s.emit (Cmd.CreateRayTracingPipelineState (RayTracingPSOInfo P s))) with
    m_pRayTracingPSO := some pso }
  let s := s.emit (Cmd.SetVariable pso "SHADER_TYPE_RAY_GEN" "g_ConstantsCB")
  let s := s.emit (Cmd.SetVariable pso "SHADER_TYPE_RAY_MISS" "g_ConstantsCB")
  let s := s.emit (Cmd.SetVariable pso "SHADER_TYPE_RAY_CLOSEST_HIT" "g_ConstantsCB")
  let (srb, s) := s.fresh
  Outcome.ok { (s.emit (Cmd.CreateShaderResourceBinding pso)) with m_pRayTracingSRB := some srb }

/-- `Tutorial21_RayTracing::LoadTextures`. -/
def LoadTextures {F M : Type} (P : Platform F M) (s : State F M) : Outcome F M :=
  let s := (List.range P.NumTextures).foldl
    (fun s tex => s.emit (Cmd.CreateTextureFromFile ("DGLogo" ++ toString tex ++ ".png"))) s
  let s := s.emit (Cmd.TransitionResourceStates P.NumTextures)
  match s.m_pRayTracingSRB with
  | none => Outcome.crash s "m_pRayTracingSRB"
  | some srb =>
    let s := s.emit (Cmd.SetVariable srb "SHADER_TYPE_RAY_CLOSEST_HIT" "g_CubeTextures")
    let s := s.emit (Cmd.CreateTextureFromFile "Ground.jpg")
    Outcome.ok (s.emit (Cmd.SetVariable srb "SHADER_TYPE_RAY_CLOSEST_HIT" "g_GroundTexture"))

/-- The descriptor `Tri` of `CreateCubeBLAS`. -/
def CubeTriangleDesc {F M : Type} (P : Platform F M) : BLASTriangleDesc :=
  { GeometryName := "Cube"
    MaxVertexCount := P.CubeGeoInfo.NumVertices
    VertexValueType := "VT_FLOAT32"
    VertexComponentCount := 3
    MaxPrimitiveCount := P.CubeGeoInfo.NumIndices / 3
    IndexType := "VT_UINT32" }

/-- The build data `TriData` of `CreateCubeBLAS`; `sizeof(float3)` is 12. -/
def CubeTriangleData (Tri : BLASTriangleDesc) (pCubeVertexBuffer pCubeIndexBuffer : Handle) :
    BLASBuildTriangleData :=
  { GeometryName := Tri.GeometryName
    pVertexBuffer := some pCubeVertexBuffer
    VertexStride := 12
    VertexCount := Tri.MaxVertexCount
    VertexValueType := Tri.VertexValueType
    VertexComponentCount := Tri.VertexComponentCount
    pIndexBuffer := some pCubeIndexBuffer
    PrimitiveCount := Tri.MaxPrimitiveCount
    IndexType := Tri.IndexType }

/-- `Tutorial21_RayTracing::CreateCubeBLAS`. -/
def CreateCubeBLAS {F M : Type} (P : Platform F M) (s : State F M) : Outcome F M :=
  let BuffDesc : BufferDesc := { Name := "Cube Attribs", Size := P.sizeofCubeAttribs }
  let (cb, s) := s.fresh
  let s := { (s.emit (Cmd.CreateBuffer BuffDesc)) with m_CubeAttribsCB := some ⟨cb, BuffDesc⟩ }
  match s.m_pRayTracingSRB with
  | none => Outcome.crash s "m_pRayTracingSRB"
  | some srb =>
    let s := s.emit (Cmd.SetVariable srb "SHADER_TYPE_RAY_CLOSEST_HIT" "g_CubeAttribsCB")
    let (pCubeVertexBuffer, s) := s.fresh
    let (pCubeIndexBuffer, s) := s.fresh
    let s := s.emit Cmd.CreateGeometryPrimitiveBuffers
    let Tri := CubeTriangleDesc P
    let ASDesc : BottomLevelASDesc := { Name := "Cube BLAS", Triangles := [Tri], Boxes := [] }
    let (blas, s) := s.fresh
    let s := { (s.emit (Cmd.CreateBLAS ASDesc)) with m_pCubeBLAS := some blas }
    let ScratchDesc : BufferDesc := { Name := "BLAS Scratch Buffer", Size := P.blasScratch.Build }
    let (scratch, s) := s.fresh
    let s := s.emit (Cmd.CreateBuffer ScratchDesc)
    let TriData := CubeTriangleData Tri pCubeVertexBuffer pCubeIndexBuffer
    let Attribs : BuildBLASAttribs :=
      { pBLAS := s.m_pCubeBLAS, TriangleData := [TriData], BoxData := [],
        pScratchBuffer := some ⟨scratch, ScratchDesc⟩ }
    Outcome.ok (s.emit (Cmd.BuildBLAS Attribs))

/-- `Tutorial21_RayTracing::CreateProceduralBLAS`; the array `Boxes` has one
element. -/
def CreateProceduralBLAS {F M : Type} (P : Platform F M) (s : State F M) : Outcome F M :=
  let BoxDesc : BufferDesc := { Name := "AABB Buffer", Size := 1 * P.sizeofBoxAttribs }
  let (bb, s) := s.fresh
  let s := { (s.emit (Cmd.CreateBuffer BoxDesc)) with m_BoxAttribsCB := some ⟨bb, BoxDesc⟩ }
  match s.m_pRayTracingSRB with
  | none => Outcome.crash s "m_pRayTracingSRB"
  | some srb =>
    let s := s.emit (Cmd.SetVariable srb "SHADER_TYPE_RAY_INTERSECTION" "g_BoxAttribs")
    let BoxInfo : BLASBoundingBoxDesc := { GeometryName := "Box", MaxBoxCount := 1 }
    let ASDesc : BottomLevelASDesc :=
      { Name := "Procedural BLAS", Triangles := [], Boxes := [BoxInfo] }
    let (blas, s) := s.fresh
    let s := { (s.emit (Cmd.CreateBLAS ASDesc)) with m_pProceduralBLAS := some blas }
    let ScratchDesc : BufferDesc := { Name := "BLAS Scratch Buffer", Size := P.blasScratch.Build }
    let (scratch, s) := s.fresh
    let s := s.emit (Cmd.CreateBuffer ScratchDesc)
    let BoxDataDesc : BLASBuildBoundingBoxData :=
      { GeometryName := BoxInfo.GeometryName, BoxCount := 1, BoxStride := P.sizeofBoxAttribs,
        pBoxBuffer := s.m_BoxAttribsCB }
    let Attribs : BuildBLASAttribs :=
      { pBLAS := s.m_pProceduralBLAS, TriangleData := [], BoxData := [BoxDataDesc],
        pScratchBuffer := some ⟨scratch, ScratchDesc⟩ }
    Outcome.ok (s.emit (Cmd.BuildBLAS Attribs))

/-- `Tutorial21_RayTracing::CreateSBT`. -/
def CreateSBT {F M : Type} (P : Platform F M) (s : State F M) : Outcome F M :=
  let (sbt, s) := s.fresh
  let s := { (s.emit (Cmd.CreateSBT s.m_pRayTracingPSO)) with m_pSBT := some sbt }
  let s := s.emit (Cmd.BindRayGenShader "Main")
  let s := s.emit (Cmd.BindMissShader "PrimaryMiss" P.PRIMARY_RAY_INDEX)
  let s := s.emit (Cmd.BindMissShader "ShadowMiss" P.SHADOW_RAY_INDEX)
  let s := (List.range NumLocalCubes).foldl
    (fun s i => s.emit (Cmd.BindHitGroupForInstance s.m_pTLAS
      ("Cube Instance " ++ toString (i + 1)) P.PRIMARY_RAY_INDEX "CubePrimaryHit")) s
  let s := (List.range NumLocalSpheres).foldl
    (fun s i => s.emit (Cmd.BindHitGroupForInstance s.m_pTLAS
      ("Sphere Instance " ++ toString (i + 1)) P.PRIMARY_RAY_INDEX "SpherePrimaryHit")) s
  let s := s.emit
    (Cmd.BindHitGroupForInstance s.m_pTLAS "Ground Instance" P.PRIMARY_RAY_INDEX "GroundHit")
  let s := s.emit
    (Cmd.BindHitGroupForInstance s.m_pTLAS "Glass Instance" P.PRIMARY_RAY_INDEX "GlassPrimaryHit")
  let s := s.emit (Cmd.BindHitGroupForTLAS s.m_pTLAS P.SHADOW_RAY_INDEX none)
  let s := (List.range NumLocalSpheres).foldl
    (fun s i => s.emit (Cmd.BindHitGroupForInstance s.m_pTLAS
      ("Sphere Instance " ++ toString (i + 1)) P.SHADOW_RAY_INDEX "SphereShadowHit")) s
  Outcome.ok (s.emit (Cmd.UpdateSBT sbt))

/-- The test at the head of `Initialize`:
`(CapFlags & RAY_TRACING_CAP_FLAG_STANDALONE_SHADERS) == 0`. -/
def standaloneShadersMissing {F M : Type} (P : Platform F M) : Bool :=
  (P.CapFlags &&& P.RAY_TRACING_CAP_FLAG_STANDALONE_SHADERS) == 0

/-- `Tutorial21_RayTracing::Initialize`, up to and including the assignment of
`m_Constants.MaxRecursion`; the camera set-up and the remaining shading constants
touch nothing the other functions read. -/
def Initialize {F M : Type} (P : Platform F M) (s : State F M) : Outcome F M :=
  if standaloneShadersMissing P then
    Outcome.ok (s.emit (Cmd.Unsupported "Ray tracing shaders are not supported by device"))
  else
    let BuffDesc : BufferDesc := { Name := "Constant buffer", Size := P.sizeofConstants }
    let (cb, s) := s.fresh
    let s := { (s.emit (Cmd.CreateBuffer BuffDesc)) with m_ConstantsCB := some ⟨cb, BuffDesc⟩ }
    (CreateGraphicsPSO s).andThen fun s =>
    (CreateRayTracingPSO P s).andThen fun s =>
    (LoadTextures P s).andThen fun s =>
    (CreateCubeBLAS P s).andThen fun s =>
    (CreateProceduralBLAS P s).andThen fun s =>
    (UpdateTLAS P s).andThen fun s =>
    (CreateSBT P s).andThen fun s =>
    Outcome.ok { s with m_Constants_MaxRecursion := min 6 s.m_MaxRecursionDepth }

/-- `Tutorial21_RayTracing::Render`. -/
def Render {F M : Type} (P : Platform F M) (s : State F M) : Outcome F M :=
  (UpdateTLAS P s).andThen fun s =>
  let s := s.emit (Cmd.UpdateBuffer s.m_ConstantsCB)
  match s.m_pRayTracingSRB with
  | none => Outcome.crash s "m_pRayTracingSRB"
  | some srb =>
    match s.m_pColorRT with
    | none => Outcome.crash s "m_pColorRT"
    | some rt =>
      let s := s.emit (Cmd.SetVariable srb "SHADER_TYPE_RAY_GEN" "g_ColorBuffer")
      let s := s.emit (Cmd.SetPipelineState s.m_pRayTracingPSO)
      let s := s.emit (Cmd.CommitShaderResources srb)
      let Attribs : TraceRaysAttribs :=
        { DimensionX := rt.Width, DimensionY := rt.Height, pSBT := s.m_pSBT }
      let s := s.emit (Cmd.TraceRays Attribs)
      match s.m_pImageBlitSRB with
      | none => Outcome.crash s "m_pImageBlitSRB"
      | some blit =>
        let s := s.emit (Cmd.SetVariable blit "SHADER_TYPE_PIXEL" "g_Texture")
        let s := s.emit Cmd.SetRenderTargets
        let s := s.emit (Cmd.SetPipelineState s.m_pImageBlitPSO)
        let s := s.emit (Cmd.CommitShaderResources blit)
        Outcome.ok (s.emit (Cmd.Draw 3))

/-- The effect of `Update` on the members modelled here: the animation clock moves
to a new value. -/
def State.setTime {F M : Type} (s : State F M) (time : F) : State F M :=
  { s with m_AnimationTime := time }

/-- A run of calls of `UpdateTLAS`, one for each element of `times`, the animation
time of that call; a fault ends the run. -/
def runUpdateTLAS {F M : Type} (P : Platform F M) : List F → State F M → Outcome F M
  | [], s => Outcome.ok s
  | t :: ts, s => (UpdateTLAS P (s.setTime t)).andThen (runUpdateTLAS P ts)

/-- `Tutorial21_RayTracing::WindowResize`, without the projection set-up of the
camera. -/
def WindowResize {F M : Type} (Width Height : Nat) (s : State F M) : Outcome F M :=
  if Width == 0 || Height == 0 then Outcome.ok s
  else
    match s.m_pColorRT with
    | some rt =>
      if rt.Width == Width && rt.Height == Height then Outcome.ok s
      else
        let RTDesc : TextureDesc := { Name := "Color buffer", Width := Width, Height := Height }
        Outcome.ok { (s.emit (Cmd.CreateTexture RTDesc)) with m_pColorRT := some RTDesc }
    | none =>
      let RTDesc : TextureDesc := { Name := "Color buffer", Width := Width, Height := Height }
      Outcome.ok { (s.emit (Cmd.CreateTexture RTDesc)) with m_pColorRT := some RTDesc }

/-- A run of frames, one for each element of `times`: `Update` moves the animation
clock to that time and `Render` draws the frame; a fault ends the run. -/
def runRender {F M : Type} (P : Platform F M) : List F → State F M → Outcome F M
  | [], s => Outcome.ok s
  | t :: ts, s => (Render P (s.setTime t)).andThen (runRender P ts)

/-- The sample object right after construction: every smart pointer is null and
nothing has been issued. -/
def State.start {F M : Type} (time : F) (maxRecursionDepth : Nat) : State F M :=
  { m_ConstantsCB := none, m_CubeAttribsCB := none, m_BoxAttribsCB := none,
    m_pImageBlitPSO := none, m_pImageBlitSRB := none, m_pRayTracingPSO := none,
    m_pRayTracingSRB := none, m_pCubeBLAS := none, m_pProceduralBLAS := none,
    m_pTLAS := none, m_ScratchBuffer := none, m_InstanceBuffer := none, m_pSBT := none,
    m_pColorRT := none, m_MaxRecursionDepth := maxRecursionDepth, m_AnimationTime := time,
    m_Constants_MaxRecursion := 0, log := [], nextHandle := 0 }

/-! ## Observations on the command log -/

/-- The commands issued between two states of one run. -/
def issued {F M : Type} (before after : State F M) : List (Cmd F M) :=
  after.log.drop before.log.length

/-- The attributes of the `BuildTLAS` commands of a log, in order. -/
def buildTLASCalls {F M : Type} (log : List (Cmd F M)) : List (BuildTLASAttribs F M) :=
  log.filterMap fun c =>
    match c with
    | Cmd.BuildTLAS a => some a
    | _ => none

/-- The attributes of the last command of the log when that is a `BuildTLAS`. -/
def lastBuildTLAS {F M : Type} (s : State F M) : Option (BuildTLASAttribs F M) :=
  match s.log.getLast? with
  | some (Cmd.BuildTLAS a) => some a
  | _ => none

/-- The `(ray offset, instance name)` pairs passed to `BindHitGroupForInstance`. -/
def boundInstanceNames {F M : Type} (log : List (Cmd F M)) : List (Nat × String) :=
  log.filterMap fun c =>
    match c with
    | Cmd.BindHitGroupForInstance _ name ray _ => some (ray, name)
    | _ => none

/-- The recursion depths of the ray tracing pipelines created in a log. -/
def pipelineDepths {F M : Type} (log : List (Cmd F M)) : List Nat :=
  log.filterMap fun c =>
    match c with
    | Cmd.CreateRayTracingPipelineState info => some info.MaxRecursionDepth
    | _ => none

/-- An acceleration structure build (bottom or top level, build or update) or a
trace-rays command. -/
def Cmd.isBuildOrTrace {F M : Type} : Cmd F M → Bool
  | Cmd.BuildBLAS _ => true
  | Cmd.BuildTLAS _ => true
  | Cmd.TraceRays _ => true
  | _ => false

/-- The command creates a pipeline, an acceleration structure or a binding table. -/
def Cmd.isCreation {F M : Type} : Cmd F M → Bool
  | Cmd.CreateGraphicsPipelineState _ => true
  | Cmd.CreateRayTracingPipelineState _ => true
  | Cmd.CreateBLAS _ => true
  | Cmd.CreateTLAS _ => true
  | Cmd.CreateSBT _ => true
  | _ => false

/-- The hardware mask test of an instance against a ray: the instance is considered
for intersection when `instance mask AND ray mask` is not zero. -/
def maskTest (instanceMask rayMask : Nat) : Bool :=
  (instanceMask &&& rayMask) != 0

/-- The fields of an instance other than its transform. -/
def TLASBuildInstanceData.topology {F M : Type} (inst : TLASBuildInstanceData F M) :
    Option String × Nat × Option Handle × Nat :=
  (inst.InstanceName, inst.Mask, inst.pBLAS, inst.CustomId)

/-- The instance names of the latest `BuildTLAS` of a log: the instance set the TLAS
holds. -/
def latestInstanceNames {F M : Type} (log : List (Cmd F M)) : List (Option String) :=
  match (buildTLASCalls log).getLast? with
  | some a => a.pInstances.map fun inst => inst.InstanceName
  | none => []

/-! ## The binding table

The shader binding table is an engine object; the source only calls it.  Its
behaviour is taken from sections 3, 4.4 and 6 of the specification. -/

/-- Modelled from the spec: the engine's shader binding table (`IShaderBindingTable`),
of which the source has only the calls.  It is the association
`(ray_type, instance_name) -> hit_group_name` of section 3 together with the
table-wide entry of a ray type (which may be the explicit "no hit group" entry,
`none`), and the names whose lookup in the instance set failed. -/
structure BindingTable where
  entries : List ((Nat × String) × String)
  tableWide : List (Nat × Option String)
  lookupErrors : List String
deriving DecidableEq, Repr

/-- Modelled from the spec: the bind operations of the engine's binding table, keyed
by `(TLAS, instance name, ray-type slot)` (section 6).  Binding a hit group to a name
that the latest instance set `names` does not contain is the lookup error of section
4.4 and binds nothing; a table-wide bind replaces every entry of that ray type. -/
def BindingTable.bind {F M : Type} (names : List (Option String)) (t : BindingTable) :
    Cmd F M → BindingTable
  | Cmd.BindHitGroupForInstance _ name ray group =>
    if some name ∈ names then
      { t with entries := ((ray, name), group) :: t.entries.filter (fun e => e.1 != (ray, name)) }
    else
      { t with lookupErrors := t.lookupErrors ++ [name] }
  | Cmd.BindHitGroupForTLAS _ ray group =>
    { t with
      entries := t.entries.filter (fun e => e.1.1 != ray)
      tableWide := (ray, group) :: t.tableWide.filter (fun e => e.1 != ray) }
  | _ => t

/-- Modelled from the spec: the binding table a command log leaves, the bind
operations applied in order against the instance names of the latest `BuildTLAS`. -/
def BindingTable.ofLog {F M : Type} (log : List (Cmd F M)) : BindingTable :=
  log.foldl (BindingTable.bind (latestInstanceNames log))
    { entries := [], tableWide := [], lookupErrors := [] }

/-- Modelled from the spec: resolution of a `(ray type, instance)` pair, the instance
given by its name.  The result is `none` when the pair is unbound, `some (some g)` for
hit group `g` and `some none` for the explicit table-wide "no hit group" entry. -/
def BindingTable.resolve (t : BindingTable) (ray : Nat) (name : Option String) :
    Option (Option String) :=
  match name.bind (fun n => t.entries.lookup (ray, n)) with
  | some g => some (some g)
  | none => t.tableWide.lookup ray

/-! ## A concrete platform

Used to evaluate the embedding on concrete inputs.  Float expressions are kept as
written (the free model of `MathOps`); the header constants and device values are
sample values: two one-bit geometry masks, ray indices 0 and 1, four textures. -/

/-- A `float` expression, uninterpreted. -/
inductive FExpr where
  | ofInt (i : Int)
  | lit (q : ℚ)
  | PI_F
  | add (a b : FExpr)
  | mul (a b : FExpr)
  | div (a b : FExpr)
  | cos (a : FExpr)
  | sin (a : FExpr)
deriving DecidableEq

/-- A `float3x3` expression, uninterpreted. -/
inductive MExpr where
  | RotationY (a : FExpr)
  | Scale (x y z : FExpr)
  | matMul (a b : MExpr)
  | identity
deriving DecidableEq

def symbolicOps : MathOps FExpr MExpr :=
  { ofInt := FExpr.ofInt, lit := FExpr.lit, PI_F := FExpr.PI_F, add := FExpr.add,
    mul := FExpr.mul, div := FExpr.div, cos := FExpr.cos, sin := FExpr.sin,
    RotationY := MExpr.RotationY, Scale := MExpr.Scale, matMul := MExpr.matMul,
    identity := MExpr.identity }

/-- A device with standalone ray tracing shaders and a recursion limit of 31. -/
def samplePlatform : Platform FExpr MExpr :=
  { ops := symbolicOps
    NumTextures := 4
    OPAQUE_GEOM_MASK := 0x01
    TRANSPARENT_GEOM_MASK := 0x02
    HIT_GROUP_STRIDE := 2
    PRIMARY_RAY_INDEX := 0
    SHADOW_RAY_INDEX := 1
    TLAS_INSTANCE_DATA_SIZE := 64
    RAY_TRACING_CAP_FLAG_STANDALONE_SHADERS := 0x01
    sizeofProceduralGeomIntersectionAttribs := 12
    sizeofPrimaryRayPayload := 20
    sizeofShadowRayPayload := 8
    sizeofCubeAttribs := 960
    sizeofBoxAttribs := 32
    sizeofConstants := 640
    CapFlags := 0x03
    DeviceMaxRecursionDepth := 31
    CubeGeoInfo := { NumVertices := 24, NumIndices := 36 }
    blasScratch := { Build := 4096, Update := 0 }
    tlasScratch := { Build := 8192, Update := 2048 } }

/-- The same device without the standalone shaders capability. -/
def unsupportedPlatform : Platform FExpr MExpr :=
  { samplePlatform with CapFlags := 0x02 }

/-- The sample device reporting a recursion limit of 256. -/
def deepPlatform : Platform FExpr MExpr :=
  { samplePlatform with DeviceMaxRecursionDepth := 256 }

/-- The sample object after construction, at animation time 0 with the requested
recursion depth 8. -/
def sampleStart : State FExpr MExpr :=
  State.start (FExpr.lit 0) 8

/-- The state `CreateRayTracingPSO` leaves on the sample platform: pipeline and
shader resource binding exist, no acceleration structure does. -/
def samplePipelineState : State FExpr MExpr :=
  (CreateRayTracingPSO samplePlatform sampleStart).state

/-- A state holding the three members the instance array is computed from, every
other member as after construction. -/
def State.view {F M : Type} (time : F) (cube proc : Option Handle) : State F M :=
  { (State.start time 0) with m_pCubeBLAS := cube, m_pProceduralBLAS := proc }


/-- The descriptor `UpdateTLAS` creates the TLAS with. -/
def TLASDesc34 : TopLevelASDesc :=
  { Name := "TLAS", MaxInstanceCount := 34, AllowUpdate := true, PreferFastTrace := true }

/-- The `Update` flags of the `BuildTLAS` commands of a log, in order. -/
def buildTLASFlags {F M : Type} (log : List (Cmd F M)) : List Bool :=
  (buildTLASCalls log).map fun a => a.Update

/-- The commands the ordering of a frame is about, without their arguments. -/
inductive Event where
  | blasBuild
  | tlasBuild (update : Bool)
  | sbtCreate
  | sbtBind
  | sbtUpdate
  | trace
deriving DecidableEq, Repr

/-- The event of a command: a BLAS build, a TLAS build or update, the creation of
the binding table, one of its bind calls, its upload, or a trace dispatch. -/
def Cmd.event {F M : Type} : Cmd F M → Option Event
  | Cmd.BuildBLAS _ => some Event.blasBuild
  | Cmd.BuildTLAS a => some (Event.tlasBuild a.Update)
  | Cmd.CreateSBT _ => some Event.sbtCreate
  | Cmd.BindRayGenShader _ => some Event.sbtBind
  | Cmd.BindMissShader _ _ => some Event.sbtBind
  | Cmd.BindHitGroupForInstance _ _ _ _ => some Event.sbtBind
  | Cmd.BindHitGroupForTLAS _ _ _ => some Event.sbtBind
  | Cmd.UpdateSBT _ => some Event.sbtUpdate
  | Cmd.TraceRays _ => some Event.trace
  | _ => none

/-- The events of a log, in order. -/
def events {F M : Type} (log : List (Cmd F M)) : List Event :=
  log.filterMap Cmd.event

/-- The creations of a TLAS or of a buffer in a log, in order: `none` for
`CreateTLAS`, the buffer name for `CreateBuffer`. -/
def allocations {F M : Type} (log : List (Cmd F M)) : List (Option String) :=
  log.filterMap fun c =>
    match c with
    | Cmd.CreateTLAS _ => some none
    | Cmd.CreateBuffer d => some (some d.Name)
    | _ => none

/-- The descriptors passed to `CreateBLAS` in a log. -/
def createdBLAS {F M : Type} (log : List (Cmd F M)) : List BottomLevelASDesc :=
  log.filterMap fun c =>
    match c with
    | Cmd.CreateBLAS d => some d
    | _ => none

/-- The attributes passed to `BuildBLAS` in a log. -/
def buildBLASCalls {F M : Type} (log : List (Cmd F M)) : List BuildBLASAttribs :=
  log.filterMap fun c =>
    match c with
    | Cmd.BuildBLAS a => some a
    | _ => none

/-- Size in bytes of one component of a vertex value type (`VT_FLOAT32` has 4). -/
def valueSize : String → Nat
  | "VT_FLOAT32" => 4
  | "VT_UINT32" => 4
  | _ => 0

/-- The same constants and device values over another float model. -/
def Platform.withOps {F M F' M' : Type} (P : Platform F M) (ops : MathOps F' M') :
    Platform F' M' :=
  { ops := ops
    NumTextures := P.NumTextures
    OPAQUE_GEOM_MASK := P.OPAQUE_GEOM_MASK
    TRANSPARENT_GEOM_MASK := P.TRANSPARENT_GEOM_MASK
    HIT_GROUP_STRIDE := P.HIT_GROUP_STRIDE
    PRIMARY_RAY_INDEX := P.PRIMARY_RAY_INDEX
    SHADOW_RAY_INDEX := P.SHADOW_RAY_INDEX
    TLAS_INSTANCE_DATA_SIZE := P.TLAS_INSTANCE_DATA_SIZE
    RAY_TRACING_CAP_FLAG_STANDALONE_SHADERS := P.RAY_TRACING_CAP_FLAG_STANDALONE_SHADERS
    sizeofProceduralGeomIntersectionAttribs := P.sizeofProceduralGeomIntersectionAttribs
    sizeofPrimaryRayPayload := P.sizeofPrimaryRayPayload
    sizeofShadowRayPayload := P.sizeofShadowRayPayload
    sizeofCubeAttribs := P.sizeofCubeAttribs
    sizeofBoxAttribs := P.sizeofBoxAttribs
    sizeofConstants := P.sizeofConstants
    CapFlags := P.CapFlags
    DeviceMaxRecursionDepth := P.DeviceMaxRecursionDepth
    CubeGeoInfo := P.CubeGeoInfo
    blasScratch := P.blasScratch
    tlasScratch := P.tlasScratch }

/-- The float operations read over the reals: exact arithmetic, `PI_F` is pi, the
literals and integers are themselves. -/
def MathOps.IsReal {M : Type} (O : MathOps ℝ M) : Prop :=
  (∀ i : Int, O.ofInt i = (i : ℝ)) ∧ (∀ q : ℚ, O.lit q = (q : ℝ)) ∧ O.PI_F = Real.pi ∧
  (∀ a b : ℝ, O.add a b = a + b) ∧ (∀ a b : ℝ, O.mul a b = a * b) ∧
  (∀ a b : ℝ, O.div a b = a / b) ∧ (∀ a : ℝ, O.cos a = Real.cos a) ∧
  (∀ a : ℝ, O.sin a = Real.sin a)

/-- The bind calls of one ray type in a log, in order: the instance name (`none`
for the table-wide `BindHitGroupForTLAS`) and the hit group (`none` for null). -/
def bindsOfRay {F M : Type} (ray : Nat) (log : List (Cmd F M)) :
    List (Option String × Option String) :=
  log.filterMap fun c =>
    match c with
    | Cmd.BindHitGroupForInstance _ name r group =>
      if r = ray then some (some name, some group) else none
    | Cmd.BindHitGroupForTLAS _ r group => if r = ray then some (none, group) else none
    | _ => none

/-! ## The instance array -/

theorem Instances_eq {F M : Type} (P : Platform F M) (s : State F M) :
    Instances P s =
      (List.range NumLocalCubes).map (fun i => cubeBody P s i (TLASBuildInstanceData.init P.ops)) ++
      ((List.range NumLocalSpheres).map
          (fun i => sphereBody P s i (TLASBuildInstanceData.init P.ops)) ++
        [groundBody P s (TLASBuildInstanceData.init P.ops),
          glassBody P s (TLASBuildInstanceData.init P.ops)]) := by
  simp [Instances, NumLocalCubes, NumLocalSpheres, NumInstances, List.range, List.range.loop,
    updateAt, List.replicate]

theorem Instances_length {F M : Type} (P : Platform F M) (s : State F M) :
    (Instances P s).length = 34 := by
  simp [Instances_eq, NumLocalCubes, NumLocalSpheres]

theorem Instances_cube {F M : Type} (P : Platform F M) (s : State F M) (i : Nat) (h : i < 16) :
    (Instances P s)[i]? = some (cubeBody P s i (TLASBuildInstanceData.init P.ops)) := by
  rw [Instances_eq, List.getElem?_append_left (by simpa [NumLocalCubes] using h)]
  simp [List.getElem?_map, List.getElem?_range, NumLocalCubes, h]

theorem Instances_sphere {F M : Type} (P : Platform F M) (s : State F M) (i : Nat) (h : i < 16) :
    (Instances P s)[16 + i]? = some (sphereBody P s i (TLASBuildInstanceData.init P.ops)) := by
  rw [Instances_eq, List.getElem?_append_right (by simp [NumLocalCubes]),
    List.getElem?_append_left (by simpa [NumLocalCubes, NumLocalSpheres] using h)]
  simp [List.getElem?_map, List.getElem?_range, NumLocalCubes, NumLocalSpheres, h]

theorem Instances_ground {F M : Type} (P : Platform F M) (s : State F M) :
    (Instances P s)[32]? = some (groundBody P s (TLASBuildInstanceData.init P.ops)) := by
  rw [Instances_eq, List.getElem?_append_right (by simp [NumLocalCubes]),
    List.getElem?_append_right (by simp [NumLocalCubes, NumLocalSpheres])]
  simp [NumLocalCubes, NumLocalSpheres]

theorem Instances_glass {F M : Type} (P : Platform F M) (s : State F M) :
    (Instances P s)[33]? = some (glassBody P s (TLASBuildInstanceData.init P.ops)) := by
  rw [Instances_eq, List.getElem?_append_right (by simp [NumLocalCubes]),
    List.getElem?_append_right (by simp [NumLocalCubes, NumLocalSpheres])]
  simp [NumLocalCubes, NumLocalSpheres]

/-- The array reads three members only: the animation time and the two BLAS
pointers. -/
theorem Instances_congr {F M : Type} (P : Platform F M) (s₁ s₂ : State F M)
    (ht : s₁.m_AnimationTime = s₂.m_AnimationTime) (hc : s₁.m_pCubeBLAS = s₂.m_pCubeBLAS)
    (hp : s₁.m_pProceduralBLAS = s₂.m_pProceduralBLAS) : Instances P s₁ = Instances P s₂ := by
  simp [Instances_eq, cubeBody, sphereBody, groundBody, glassBody, ht, hc, hp]

theorem Instances_mk {F M : Type} (P : Platform F M) (cb cab bab : Option Buffer)
    (bpso bsrb rpso rsrb cube proc : Option Handle) (tlas : Option TopLevelAS)
    (scratch instb : Option Buffer) (sbt : Option Handle) (rt : Option TextureDesc)
    (depth : Nat) (time : F) (mr : Nat) (log : List (Cmd F M)) (nh : Handle) :
    Instances P (State.mk cb cab bab bpso bsrb rpso rsrb cube proc tlas scratch instb sbt rt
      depth time mr log nh) = Instances P (State.view time cube proc) :=
  Instances_congr P _ _ rfl rfl rfl

/-! ## One call of `UpdateTLAS` -/

theorem UpdateTLAS_fault {F M : Type} (P : Platform F M) (s : State F M)
    (h : s.m_pTLAS.isSome ∨ s.m_pRayTracingSRB.isSome) : (UpdateTLAS P s).fault = none := by
  obtain ⟨cb, cab, bab, bpso, bsrb, rpso, rsrb, cube, proc, tlas, scratch, instb, sbt, rt,
    depth, time, mr, log, nh⟩ := s
  cases tlas <;> cases scratch <;> cases instb <;> cases rsrb <;>
    simp [UpdateTLAS, UpdateTLAS_createTLAS, UpdateTLAS_createScratch,
      UpdateTLAS_createInstanceBuffer, Outcome.andThen, Outcome.ok, Outcome.crash,
      State.emit, State.fresh] at h ⊢

theorem UpdateTLAS_frame {F M : Type} (P : Platform F M) (s : State F M) :
    (UpdateTLAS P s).state.m_AnimationTime = s.m_AnimationTime ∧
    (UpdateTLAS P s).state.m_pCubeBLAS = s.m_pCubeBLAS ∧
    (UpdateTLAS P s).state.m_pProceduralBLAS = s.m_pProceduralBLAS ∧
    (UpdateTLAS P s).state.m_pRayTracingSRB = s.m_pRayTracingSRB := by
  obtain ⟨cb, cab, bab, bpso, bsrb, rpso, rsrb, cube, proc, tlas, scratch, instb, sbt, rt,
    depth, time, mr, log, nh⟩ := s
  cases tlas <;> cases scratch <;> cases instb <;> cases rsrb <;>
    simp [UpdateTLAS, UpdateTLAS_createTLAS, UpdateTLAS_createScratch,
      UpdateTLAS_createInstanceBuffer, Outcome.andThen, Outcome.ok, Outcome.crash,
      State.emit, State.fresh]

theorem UpdateTLAS_log {F M : Type} (P : Platform F M) (s : State F M) :
    (UpdateTLAS P s).state.log = s.log ++ issued s (UpdateTLAS P s).state := by
  obtain ⟨cb, cab, bab, bpso, bsrb, rpso, rsrb, cube, proc, tlas, scratch, instb, sbt, rt,
    depth, time, mr, log, nh⟩ := s
  cases tlas <;> cases scratch <;> cases instb <;> cases rsrb <;>
    simp [UpdateTLAS, UpdateTLAS_createTLAS, UpdateTLAS_createScratch,
      UpdateTLAS_createInstanceBuffer, Outcome.andThen, Outcome.ok, Outcome.crash,
      State.emit, State.fresh, issued]

theorem UpdateTLAS_calls {F M : Type} (P : Platform F M) (s : State F M)
    (h : s.m_pTLAS.isSome ∨ s.m_pRayTracingSRB.isSome) :
    buildTLASCalls (issued s (UpdateTLAS P s).state) =
      [UpdateTLAS_attribs P (UpdateTLAS P s).state s.m_pTLAS.isSome] ∧
    lastBuildTLAS (UpdateTLAS P s).state =
      some (UpdateTLAS_attribs P (UpdateTLAS P s).state s.m_pTLAS.isSome) := by
  obtain ⟨cb, cab, bab, bpso, bsrb, rpso, rsrb, cube, proc, tlas, scratch, instb, sbt, rt,
    depth, time, mr, log, nh⟩ := s
  cases tlas <;> cases scratch <;> cases instb <;> cases rsrb <;>
    simp [UpdateTLAS, UpdateTLAS_createTLAS, UpdateTLAS_createScratch,
      UpdateTLAS_createInstanceBuffer, Outcome.andThen, Outcome.ok, Outcome.crash,
      State.emit, State.fresh, issued, buildTLASCalls, lastBuildTLAS, UpdateTLAS_attribs,
      Instances_mk] at h ⊢

theorem UpdateTLAS_handles {F M : Type} (P : Platform F M) (s : State F M)
    (h : s.m_pTLAS.isSome ∨ s.m_pRayTracingSRB.isSome) :
    (UpdateTLAS P s).state.m_pTLAS = some (s.m_pTLAS.getD ⟨s.nextHandle, TLASDesc34⟩) ∧
    (UpdateTLAS P s).state.m_ScratchBuffer.map (fun b => b.Desc) =
      some ((s.m_ScratchBuffer.map (fun b => b.Desc)).getD
        { Name := "TLAS Scratch Buffer", Size := max P.tlasScratch.Build P.tlasScratch.Update }) ∧
    (UpdateTLAS P s).state.m_InstanceBuffer.map (fun b => b.Desc) =
      some ((s.m_InstanceBuffer.map (fun b => b.Desc)).getD
        { Name := "TLAS Instance Buffer", Size := P.TLAS_INSTANCE_DATA_SIZE * 34 }) := by
  obtain ⟨cb, cab, bab, bpso, bsrb, rpso, rsrb, cube, proc, tlas, scratch, instb, sbt, rt,
    depth, time, mr, log, nh⟩ := s
  cases tlas <;> cases scratch <;> cases instb <;> cases rsrb <;>
    simp [UpdateTLAS, UpdateTLAS_createTLAS, UpdateTLAS_createScratch,
      UpdateTLAS_createInstanceBuffer, Outcome.andThen, Outcome.ok, Outcome.crash,
      State.emit, State.fresh, TLASDesc34, NumInstances, NumLocalCubes, NumLocalSpheres] at h ⊢

/-! ## Runs of `UpdateTLAS` -/

theorem issued_of_log {F M : Type} (s s' : State F M) (x : List (Cmd F M))
    (h : s'.log = s.log ++ x) : issued s s' = x := by
  simp [issued, h]

theorem issued_trans {F M : Type} (s₀ s₁ s₂ : State F M)
    (h₁ : s₁.log = s₀.log ++ issued s₀ s₁) (h₂ : s₂.log = s₁.log ++ issued s₁ s₂) :
    issued s₀ s₂ = issued s₀ s₁ ++ issued s₁ s₂ := by
  apply issued_of_log
  rw [h₂, h₁, List.append_assoc]

theorem buildTLASCalls_append {F M : Type} (l₁ l₂ : List (Cmd F M)) :
    buildTLASCalls (l₁ ++ l₂) = buildTLASCalls l₁ ++ buildTLASCalls l₂ := by
  simp [buildTLASCalls, List.filterMap_append]

theorem runUpdateTLAS_cons {F M : Type} (P : Platform F M) (t : F) (ts : List F)
    (s : State F M) (h : s.m_pTLAS.isSome ∨ s.m_pRayTracingSRB.isSome) :
    runUpdateTLAS P (t :: ts) s = runUpdateTLAS P ts (UpdateTLAS P (s.setTime t)).state := by
  have hf := UpdateTLAS_fault P (s.setTime t) h
  simp [runUpdateTLAS, Outcome.andThen, hf]

theorem UpdateTLAS_isSome {F M : Type} (P : Platform F M) (s : State F M)
    (h : s.m_pTLAS.isSome ∨ s.m_pRayTracingSRB.isSome) :
    (UpdateTLAS P s).state.m_pTLAS.isSome = true := by
  rw [(UpdateTLAS_handles P s h).1]
  rfl

theorem runUpdateTLAS_log {F M : Type} (P : Platform F M) (ts : List F) (s : State F M)
    (h : s.m_pTLAS.isSome ∨ s.m_pRayTracingSRB.isSome) :
    (runUpdateTLAS P ts s).fault = none ∧
    (runUpdateTLAS P ts s).state.log = s.log ++ issued s (runUpdateTLAS P ts s).state := by
  induction ts generalizing s with
  | nil => simp [runUpdateTLAS, Outcome.ok, issued]
  | cons t ts ih =>
    rw [runUpdateTLAS_cons P t ts s h]
    have h₁ : (UpdateTLAS P (s.setTime t)).state.log =
        s.log ++ issued s (UpdateTLAS P (s.setTime t)).state := UpdateTLAS_log P (s.setTime t)
    have ih₁ := ih (UpdateTLAS P (s.setTime t)).state
      (Or.inl (UpdateTLAS_isSome P (s.setTime t) h))
    refine ⟨ih₁.1, ?_⟩
    rw [issued_trans s _ _ h₁ ih₁.2, ← List.append_assoc, ← h₁]
    exact ih₁.2

/-- The commands of a run split into those of its first call and those of the
rest. -/
theorem runUpdateTLAS_issued {F M : Type} (P : Platform F M) (t : F) (ts : List F)
    (s : State F M) (h : s.m_pTLAS.isSome ∨ s.m_pRayTracingSRB.isSome) :
    issued s (runUpdateTLAS P (t :: ts) s).state =
      issued s (UpdateTLAS P (s.setTime t)).state ++
        issued (UpdateTLAS P (s.setTime t)).state
          (runUpdateTLAS P ts (UpdateTLAS P (s.setTime t)).state).state := by
  rw [runUpdateTLAS_cons P t ts s h]
  exact issued_trans s _ _ (UpdateTLAS_log P (s.setTime t))
    (runUpdateTLAS_log P ts _ (Or.inl (UpdateTLAS_isSome P (s.setTime t) h))).2

/-- A run issues one `BuildTLAS` for each call; every call but the first of a run
is an update, and the first is one exactly when the TLAS exists already. -/
theorem runUpdateTLAS_flags {F M : Type} (P : Platform F M) (t : F) (ts : List F)
    (s : State F M) (h : s.m_pTLAS.isSome ∨ s.m_pRayTracingSRB.isSome) :
    buildTLASFlags (issued s (runUpdateTLAS P (t :: ts) s).state) =
      s.m_pTLAS.isSome :: List.replicate ts.length true := by
  induction ts generalizing s t with
  | nil =>
    rw [runUpdateTLAS_cons P t [] s h]
    have hc : buildTLASCalls (issued s (UpdateTLAS P (s.setTime t)).state) = _ :=
      (UpdateTLAS_calls P (s.setTime t) h).1
    simp only [runUpdateTLAS, Outcome.ok, buildTLASFlags]
    rw [hc]
    simp [UpdateTLAS_attribs, State.setTime]
  | cons u us ih =>
    have hs := UpdateTLAS_isSome P (s.setTime t) h
    have ih₁ := ih u (UpdateTLAS P (s.setTime t)).state (Or.inl hs)
    have hc : buildTLASCalls (issued s (UpdateTLAS P (s.setTime t)).state) = _ :=
      (UpdateTLAS_calls P (s.setTime t) h).1
    rw [runUpdateTLAS_issued P t (u :: us) s h]
    simp only [buildTLASFlags, buildTLASCalls_append, List.map_append] at ih₁ ⊢
    rw [ih₁, hc, hs]
    simp [UpdateTLAS_attribs, List.replicate_succ, State.setTime]

/-- One call keeps the TLAS at 34 slots and the instance buffer at 34 elements, and
submits attributes that fit them. -/
theorem UpdateTLAS_capacity {F M : Type} (P : Platform F M) (s : State F M) (flag : Bool)
    (h : s.m_pTLAS.isSome ∨ s.m_pRayTracingSRB.isSome)
    (hT : ∀ t, s.m_pTLAS = some t → t.Desc.MaxInstanceCount = 34)
    (hB : ∀ b, s.m_InstanceBuffer = some b → b.Desc.Size = P.TLAS_INSTANCE_DATA_SIZE * 34) :
    (∀ t, (UpdateTLAS P s).state.m_pTLAS = some t → t.Desc.MaxInstanceCount = 34) ∧
    (∀ b, (UpdateTLAS P s).state.m_InstanceBuffer = some b →
      b.Desc.Size = P.TLAS_INSTANCE_DATA_SIZE * 34) ∧
    (UpdateTLAS_attribs P (UpdateTLAS P s).state flag).pTLAS.map
      (fun t => t.Desc.MaxInstanceCount) = some 34 ∧
    (UpdateTLAS_attribs P (UpdateTLAS P s).state flag).pInstanceBuffer.map
      (fun b => b.Desc.Size) = some (P.TLAS_INSTANCE_DATA_SIZE * 34) := by
  obtain ⟨h₁, -, h₃⟩ := UpdateTLAS_handles P s h
  have e₁ : ∀ t, (UpdateTLAS P s).state.m_pTLAS = some t → t.Desc.MaxInstanceCount = 34 := by
    intro t ht
    rw [h₁] at ht
    cases hs : s.m_pTLAS with
    | none =>
      rw [hs] at ht
      simp only [Option.getD_none, Option.some.injEq] at ht
      rw [← ht]
      rfl
    | some t₀ =>
      rw [hs] at ht
      simp only [Option.getD_some, Option.some.injEq] at ht
      rw [← ht]
      exact hT t₀ hs
  have e₂ : ∀ b, (UpdateTLAS P s).state.m_InstanceBuffer = some b →
      b.Desc.Size = P.TLAS_INSTANCE_DATA_SIZE * 34 := by
    intro b hb
    rw [hb] at h₃
    cases hs : s.m_InstanceBuffer with
    | none =>
      rw [hs] at h₃
      simp only [Option.map_some', Option.map_none', Option.getD_none, Option.some.injEq] at h₃
      rw [h₃]
    | some b₀ =>
      rw [hs] at h₃
      simp only [Option.map_some', Option.getD_some, Option.some.injEq] at h₃
      rw [h₃]
      exact hB b₀ hs
  refine ⟨e₁, e₂, ?_, ?_⟩
  · cases ht : (UpdateTLAS P s).state.m_pTLAS with
    | none => rw [h₁] at ht; cases ht
    | some t => simp [UpdateTLAS_attribs, ht, e₁ t ht]
  · cases hb : (UpdateTLAS P s).state.m_InstanceBuffer with
    | none => rw [hb] at h₃; cases h₃
    | some b => simp [UpdateTLAS_attribs, hb, e₂ b hb]

/-- Every `BuildTLAS` of a run submits 34 instances to a TLAS of 34 slots with an
instance buffer of 34 elements. -/
theorem runUpdateTLAS_capacity {F M : Type} (P : Platform F M) (ts : List F) (s : State F M)
    (h : s.m_pTLAS.isSome ∨ s.m_pRayTracingSRB.isSome)
    (hT : ∀ t, s.m_pTLAS = some t → t.Desc.MaxInstanceCount = 34)
    (hB : ∀ b, s.m_InstanceBuffer = some b → b.Desc.Size = P.TLAS_INSTANCE_DATA_SIZE * 34) :
    ∀ a ∈ buildTLASCalls (issued s (runUpdateTLAS P ts s).state),
      a.InstanceCount = 34 ∧ a.pInstances.length = 34 ∧
      a.pTLAS.map (fun t => t.Desc.MaxInstanceCount) = some 34 ∧
      a.pInstanceBuffer.map (fun b => b.Desc.Size) = some (P.TLAS_INSTANCE_DATA_SIZE * 34) := by
  induction ts generalizing s with
  | nil =>
    intro a ha
    simp [runUpdateTLAS, Outcome.ok, issued, buildTLASCalls] at ha
  | cons t ts ih =>
    intro a ha
    have hc : buildTLASCalls (issued s (UpdateTLAS P (s.setTime t)).state) = _ :=
      (UpdateTLAS_calls P (s.setTime t) h).1
    obtain ⟨c₁, c₂, c₃, c₄⟩ :=
      UpdateTLAS_capacity P (s.setTime t) (s.setTime t).m_pTLAS.isSome h hT hB
    rw [runUpdateTLAS_issued P t ts s h, buildTLASCalls_append, hc, List.mem_append] at ha
    rcases ha with ha | ha
    · rw [List.mem_singleton] at ha
      subst ha
      refine ⟨?_, ?_, c₃, c₄⟩
      · simp [UpdateTLAS_attribs, NumInstances, NumLocalCubes, NumLocalSpheres]
      · simp only [UpdateTLAS_attribs]
        exact Instances_length P _
    · exact ih _ (Or.inl (UpdateTLAS_isSome P (s.setTime t) h)) c₁ c₂ a ha

/-- A call that does not fault ends with a `BuildTLAS` that submits the array
`Instances` of the state it was called in, as an update exactly when the TLAS
existed before the call. -/
theorem UpdateTLAS_submitted {F M : Type} (P : Platform F M) (s : State F M)
    (h : s.m_pTLAS.isSome ∨ s.m_pRayTracingSRB.isSome) :
    ∃ a, lastBuildTLAS (UpdateTLAS P s).state = some a ∧ a.pInstances = Instances P s ∧
      a.Update = s.m_pTLAS.isSome ∧ a.InstanceCount = 34 ∧
      a.pTLAS = (UpdateTLAS P s).state.m_pTLAS := by
  obtain ⟨ht, hc, hp, -⟩ := UpdateTLAS_frame P s
  refine ⟨_, (UpdateTLAS_calls P s h).2, ?_, rfl, ?_, rfl⟩
  · simp only [UpdateTLAS_attribs]
    exact Instances_congr P _ _ ht hc hp
  · simp [UpdateTLAS_attribs, NumInstances, NumLocalCubes, NumLocalSpheres]

/-- Masks that are disjoint stay disjoint when one is narrowed to 8 bits. -/
theorem mask_disjoint (a b : Nat) (h : a &&& b = 0) : (a % 256) &&& b = 0 := by
  have e : a % 256 = a &&& 255 := by
    rw [show (255 : ℕ) = 2 ^ 8 - 1 by norm_num, Nat.and_pow_two_sub_one_eq_mod]
  rw [e, Nat.and_assoc, Nat.and_comm 255 b, ← Nat.and_assoc, h]
  simp

theorem Instances_topology {F M : Type} (P : Platform F M) (s₁ s₂ : State F M)
    (hc : s₁.m_pCubeBLAS = s₂.m_pCubeBLAS)
    (hp : s₁.m_pProceduralBLAS = s₂.m_pProceduralBLAS) :
    (Instances P s₁).map TLASBuildInstanceData.topology =
      (Instances P s₂).map TLASBuildInstanceData.topology := by
  simp [Instances_eq, TLASBuildInstanceData.topology, cubeBody, sphereBody, groundBody,
    glassBody, hc, hp, InstanceMatrix.SetRotation, InstanceMatrix.SetTranslation]

/-- On a device without standalone shaders the first frame after `Initialize` does
not complete: `Render` has no capability check, its `UpdateTLAS` call issues
`CreateTLAS` and then calls through the null `m_pRayTracingSRB`. -/
theorem Render_unsupported_faults {F M : Type} (P : Platform F M) (time t : F) (depth : Nat)
    (hU : standaloneShadersMissing P = true) :
    (Render P ((Initialize P (State.start time depth)).state.setTime t)).fault =
      some (Fault.nullDeref "m_pRayTracingSRB") ∧
    issued (Initialize P (State.start time depth)).state
      (Render P ((Initialize P (State.start time depth)).state.setTime t)).state =
      [Cmd.CreateTLAS TLASDesc34] := by
  simp [Initialize, hU, Render, UpdateTLAS, UpdateTLAS_createTLAS, Outcome.ok, Outcome.crash,
    Outcome.andThen, State.emit, State.fresh, State.start, State.setTime, issued, TLASDesc34,
    NumInstances, NumLocalCubes, NumLocalSpheres]

/-! ## The functions of `Initialize`, one by one -/

theorem foldl_emit {F M α : Type} (f : α → Cmd F M) (l : List α) (s : State F M) :
    l.foldl (fun s x => s.emit (f x)) s = { s with log := s.log ++ l.map f } := by
  induction l generalizing s with
  | nil => simp
  | cons x xs ih =>
    rw [List.foldl_cons, ih]
    simp [State.emit]

theorem andThen_ok {F M : Type} (o : Outcome F M) (f : State F M → Outcome F M)
    (h : o.fault = none) : o.andThen f = f o.state := by
  simp [Outcome.andThen, h]

theorem events_append {F M : Type} (l₁ l₂ : List (Cmd F M)) :
    events (l₁ ++ l₂) = events l₁ ++ events l₂ := by
  simp [events, List.filterMap_append]

theorem CreateGraphicsPSO_spec {F M : Type} (s : State F M) :
    (CreateGraphicsPSO s).fault = none ∧
    events (CreateGraphicsPSO s).state.log = events s.log ∧
    pipelineDepths (CreateGraphicsPSO s).state.log = pipelineDepths s.log ∧
    (CreateGraphicsPSO s).state.m_pImageBlitSRB.isSome = true ∧
    (CreateGraphicsPSO s).state.m_pRayTracingSRB = s.m_pRayTracingSRB ∧
    (CreateGraphicsPSO s).state.m_MaxRecursionDepth = s.m_MaxRecursionDepth ∧
    (CreateGraphicsPSO s).state.m_pTLAS = s.m_pTLAS ∧
    (CreateGraphicsPSO s).state.m_pColorRT = s.m_pColorRT := by
  obtain ⟨cb, cab, bab, bpso, bsrb, rpso, rsrb, cube, proc, tlas, scratch, instb, sbt, rt,
    depth, time, mr, log, nh⟩ := s
  simp [CreateGraphicsPSO, Outcome.ok, State.emit, State.fresh, events, pipelineDepths,
    List.filterMap_append, Cmd.event]

theorem CreateRayTracingPSO_spec {F M : Type} (P : Platform F M) (s : State F M) :
    (CreateRayTracingPSO P s).fault = none ∧
    events (CreateRayTracingPSO P s).state.log = events s.log ∧
    pipelineDepths (CreateRayTracingPSO P s).state.log = pipelineDepths s.log ++
      [min s.m_MaxRecursionDepth P.DeviceMaxRecursionDepth % 256] ∧
    (CreateRayTracingPSO P s).state.m_pImageBlitSRB = s.m_pImageBlitSRB ∧
    (CreateRayTracingPSO P s).state.m_pRayTracingSRB.isSome = true ∧
    (CreateRayTracingPSO P s).state.m_MaxRecursionDepth =
      min s.m_MaxRecursionDepth P.DeviceMaxRecursionDepth ∧
    (CreateRayTracingPSO P s).state.m_pTLAS = s.m_pTLAS ∧
    (CreateRayTracingPSO P s).state.m_pColorRT = s.m_pColorRT := by
  obtain ⟨cb, cab, bab, bpso, bsrb, rpso, rsrb, cube, proc, tlas, scratch, instb, sbt, rt,
    depth, time, mr, log, nh⟩ := s
  simp [CreateRayTracingPSO, clampRecursionDepth, RayTracingPSOInfo, Outcome.ok, State.emit,
    State.fresh, events, pipelineDepths, List.filterMap_append, Cmd.event]

theorem LoadTextures_spec {F M : Type} (P : Platform F M) (s : State F M)
    (hR : s.m_pRayTracingSRB.isSome) :
    (LoadTextures P s).fault = none ∧
    events (LoadTextures P s).state.log = events s.log ∧
    pipelineDepths (LoadTextures P s).state.log = pipelineDepths s.log ∧
    (LoadTextures P s).state.m_pImageBlitSRB = s.m_pImageBlitSRB ∧
    (LoadTextures P s).state.m_pRayTracingSRB = s.m_pRayTracingSRB ∧
    (LoadTextures P s).state.m_MaxRecursionDepth = s.m_MaxRecursionDepth ∧
    (LoadTextures P s).state.m_pTLAS = s.m_pTLAS ∧
    (LoadTextures P s).state.m_pColorRT = s.m_pColorRT := by
  obtain ⟨cb, cab, bab, bpso, bsrb, rpso, rsrb, cube, proc, tlas, scratch, instb, sbt, rt,
    depth, time, mr, log, nh⟩ := s
  cases rsrb with
  | none => simp at hR
  | some srb =>
    simp only [LoadTextures, foldl_emit]
    simp [Outcome.ok, State.emit, events, pipelineDepths, List.filterMap_append, Cmd.event,
      List.filterMap_map]

theorem CreateCubeBLAS_spec {F M : Type} (P : Platform F M) (s : State F M)
    (hR : s.m_pRayTracingSRB.isSome) :
    (CreateCubeBLAS P s).fault = none ∧
    events (CreateCubeBLAS P s).state.log = events s.log ++ [Event.blasBuild] ∧
    pipelineDepths (CreateCubeBLAS P s).state.log = pipelineDepths s.log ∧
    (CreateCubeBLAS P s).state.m_pImageBlitSRB = s.m_pImageBlitSRB ∧
    (CreateCubeBLAS P s).state.m_pRayTracingSRB = s.m_pRayTracingSRB ∧
    (CreateCubeBLAS P s).state.m_MaxRecursionDepth = s.m_MaxRecursionDepth ∧
    (CreateCubeBLAS P s).state.m_pTLAS = s.m_pTLAS ∧
    (CreateCubeBLAS P s).state.m_pColorRT = s.m_pColorRT := by
  obtain ⟨cb, cab, bab, bpso, bsrb, rpso, rsrb, cube, proc, tlas, scratch, instb, sbt, rt,
    depth, time, mr, log, nh⟩ := s
  cases rsrb with
  | none => simp at hR
  | some srb =>
    simp [CreateCubeBLAS, Outcome.ok, State.emit, State.fresh, events, pipelineDepths,
      List.filterMap_append, Cmd.event]

theorem CreateProceduralBLAS_spec {F M : Type} (P : Platform F M) (s : State F M)
    (hR : s.m_pRayTracingSRB.isSome) :
    (CreateProceduralBLAS P s).fault = none ∧
    events (CreateProceduralBLAS P s).state.log = events s.log ++ [Event.blasBuild] ∧
    pipelineDepths (CreateProceduralBLAS P s).state.log = pipelineDepths s.log ∧
    (CreateProceduralBLAS P s).state.m_pImageBlitSRB = s.m_pImageBlitSRB ∧
    (CreateProceduralBLAS P s).state.m_pRayTracingSRB = s.m_pRayTracingSRB ∧
    (CreateProceduralBLAS P s).state.m_MaxRecursionDepth = s.m_MaxRecursionDepth ∧
    (CreateProceduralBLAS P s).state.m_pTLAS = s.m_pTLAS ∧
    (CreateProceduralBLAS P s).state.m_pColorRT = s.m_pColorRT := by
  obtain ⟨cb, cab, bab, bpso, bsrb, rpso, rsrb, cube, proc, tlas, scratch, instb, sbt, rt,
    depth, time, mr, log, nh⟩ := s
  cases rsrb with
  | none => simp at hR
  | some srb =>
    simp [CreateProceduralBLAS, Outcome.ok, State.emit, State.fresh, events, pipelineDepths,
      List.filterMap_append, Cmd.event]

theorem UpdateTLAS_spec {F M : Type} (P : Platform F M) (s : State F M)
    (h : s.m_pTLAS.isSome ∨ s.m_pRayTracingSRB.isSome) :
    (UpdateTLAS P s).fault = none ∧
    events (UpdateTLAS P s).state.log = events s.log ++ [Event.tlasBuild s.m_pTLAS.isSome] ∧
    pipelineDepths (UpdateTLAS P s).state.log = pipelineDepths s.log ∧
    (UpdateTLAS P s).state.m_pImageBlitSRB = s.m_pImageBlitSRB ∧
    (UpdateTLAS P s).state.m_pRayTracingSRB = s.m_pRayTracingSRB ∧
    (UpdateTLAS P s).state.m_MaxRecursionDepth = s.m_MaxRecursionDepth ∧
    (UpdateTLAS P s).state.m_pTLAS.isSome = true ∧
    (UpdateTLAS P s).state.m_pColorRT = s.m_pColorRT := by
  obtain ⟨cb, cab, bab, bpso, bsrb, rpso, rsrb, cube, proc, tlas, scratch, instb, sbt, rt,
    depth, time, mr, log, nh⟩ := s
  cases tlas <;> cases scratch <;> cases instb <;> cases rsrb <;>
    simp [UpdateTLAS, UpdateTLAS_createTLAS, UpdateTLAS_createScratch,
      UpdateTLAS_createInstanceBuffer, Outcome.andThen, Outcome.ok, Outcome.crash,
      State.emit, State.fresh, events, pipelineDepths, List.filterMap_append, Cmd.event,
      UpdateTLAS_attribs] at h ⊢

theorem CreateSBT_spec {F M : Type} (P : Platform F M) (s : State F M) :
    (CreateSBT P s).fault = none ∧
    events (CreateSBT P s).state.log =
      events s.log ++ ([Event.sbtCreate] ++ List.replicate 54 Event.sbtBind ++ [Event.sbtUpdate]) ∧
    pipelineDepths (CreateSBT P s).state.log = pipelineDepths s.log ∧
    (CreateSBT P s).state.m_pImageBlitSRB = s.m_pImageBlitSRB ∧
    (CreateSBT P s).state.m_pRayTracingSRB = s.m_pRayTracingSRB ∧
    (CreateSBT P s).state.m_MaxRecursionDepth = s.m_MaxRecursionDepth ∧
    (CreateSBT P s).state.m_pTLAS = s.m_pTLAS ∧
    (CreateSBT P s).state.m_pColorRT = s.m_pColorRT ∧
    (CreateSBT P s).state.m_pSBT.isSome = true := by
  obtain ⟨cb, cab, bab, bpso, bsrb, rpso, rsrb, cube, proc, tlas, scratch, instb, sbt, rt,
    depth, time, mr, log, nh⟩ := s
  simp [CreateSBT, Outcome.ok, State.emit, State.fresh, events, pipelineDepths,
    List.filterMap_append, Cmd.event, NumLocalCubes, NumLocalSpheres, List.range,
    List.range.loop, List.replicate]

theorem WindowResize_spec {F M : Type} (Width Height : Nat) (s : State F M)
    (hW : 0 < Width) (hH : 0 < Height) :
    (WindowResize Width Height s).fault = none ∧
    events (WindowResize Width Height s).state.log = events s.log ∧
    pipelineDepths (WindowResize Width Height s).state.log = pipelineDepths s.log ∧
    (WindowResize Width Height s).state.m_pImageBlitSRB = s.m_pImageBlitSRB ∧
    (WindowResize Width Height s).state.m_pRayTracingSRB = s.m_pRayTracingSRB ∧
    (WindowResize Width Height s).state.m_MaxRecursionDepth = s.m_MaxRecursionDepth ∧
    (WindowResize Width Height s).state.m_Constants_MaxRecursion = s.m_Constants_MaxRecursion ∧
    (WindowResize Width Height s).state.m_pTLAS = s.m_pTLAS ∧
    (WindowResize Width Height s).state.m_pColorRT.isSome = true := by
  obtain ⟨cb, cab, bab, bpso, bsrb, rpso, rsrb, cube, proc, tlas, scratch, instb, sbt, rt,
    depth, time, mr, log, nh⟩ := s
  have hw : Width ≠ 0 := by omega
  have hh : Height ≠ 0 := by omega
  cases rt with
  | none =>
    simp [WindowResize, Outcome.ok, State.emit, events, pipelineDepths, List.filterMap_append,
      Cmd.event, hw, hh]
  | some r =>
    by_cases hr : r.Width = Width ∧ r.Height = Height
    · simp [WindowResize, Outcome.ok, State.emit, events, pipelineDepths,
        List.filterMap_append, Cmd.event, hw, hh, hr]
    · simp [WindowResize, Outcome.ok, State.emit, events, pipelineDepths,
        List.filterMap_append, Cmd.event, hw, hh, hr]

theorem Render_spec {F M : Type} (P : Platform F M) (s : State F M)
    (hT : s.m_pTLAS.isSome) (hR : s.m_pRayTracingSRB.isSome) (hC : s.m_pColorRT.isSome)
    (hB : s.m_pImageBlitSRB.isSome) :
    (Render P s).fault = none ∧
    events (Render P s).state.log = events s.log ++ [Event.tlasBuild true, Event.trace] ∧
    pipelineDepths (Render P s).state.log = pipelineDepths s.log ∧
    (Render P s).state.m_pImageBlitSRB = s.m_pImageBlitSRB ∧
    (Render P s).state.m_pRayTracingSRB = s.m_pRayTracingSRB ∧
    (Render P s).state.m_MaxRecursionDepth = s.m_MaxRecursionDepth ∧
    (Render P s).state.m_Constants_MaxRecursion = s.m_Constants_MaxRecursion ∧
    (Render P s).state.m_pTLAS = s.m_pTLAS ∧
    (Render P s).state.m_pColorRT = s.m_pColorRT ∧
    (Render P s).state.m_pSBT = s.m_pSBT := by
  obtain ⟨cb, cab, bab, bpso, bsrb, rpso, rsrb, cube, proc, tlas, scratch, instb, sbt, rt,
    depth, time, mr, log, nh⟩ := s
  cases tlas with
  | none => simp at hT
  | some tl =>
  cases rsrb with
  | none => simp at hR
  | some srb =>
  cases rt with
  | none => simp at hC
  | some r =>
  cases bsrb with
  | none => simp at hB
  | some blit =>
    cases scratch <;> cases instb <;>
      simp [Render, UpdateTLAS, UpdateTLAS_createTLAS, UpdateTLAS_createScratch,
        UpdateTLAS_createInstanceBuffer, Outcome.andThen, Outcome.ok, Outcome.crash,
        State.emit, State.fresh, events, pipelineDepths, List.filterMap_append, Cmd.event,
        UpdateTLAS_attribs]

/-- A run of frames on an initialised object: no frame faults, and each frame adds a
TLAS update followed by a trace dispatch to the events, nothing else. -/
theorem runRender_spec {F M : Type} (P : Platform F M) (ts : List F) (s : State F M)
    (hT : s.m_pTLAS.isSome) (hR : s.m_pRayTracingSRB.isSome) (hC : s.m_pColorRT.isSome)
    (hB : s.m_pImageBlitSRB.isSome) :
    (runRender P ts s).fault = none ∧
    events (runRender P ts s).state.log =
      events s.log ++ (ts.map fun _ => [Event.tlasBuild true, Event.trace]).flatten ∧
    pipelineDepths (runRender P ts s).state.log = pipelineDepths s.log ∧
    (runRender P ts s).state.m_MaxRecursionDepth = s.m_MaxRecursionDepth ∧
    (runRender P ts s).state.m_Constants_MaxRecursion = s.m_Constants_MaxRecursion ∧
    (runRender P ts s).state.m_pSBT = s.m_pSBT := by
  induction ts generalizing s with
  | nil => simp [runRender, Outcome.ok]
  | cons t ts ih =>
    obtain ⟨r₁, r₂, r₃, r₄, r₅, r₆, r₇, r₈, r₉, r₁₀⟩ := Render_spec P (s.setTime t) hT hR hC hB
    have e : runRender P (t :: ts) s = runRender P ts (Render P (s.setTime t)).state := by
      simp only [runRender]
      exact andThen_ok _ _ r₁
    obtain ⟨i₁, i₂, i₃, i₄, i₅, i₆⟩ := ih (Render P (s.setTime t)).state
      (by rw [r₈]; exact hT) (by rw [r₅]; exact hR) (by rw [r₉]; exact hC)
      (by rw [r₄]; exact hB)
    rw [e]
    refine ⟨i₁, ?_, ?_, ?_, ?_, ?_⟩
    · rw [i₂, r₂]
      simp [State.setTime]
    · rw [i₃, r₃]; rfl
    · rw [i₄, r₆]; rfl
    · rw [i₅, r₇]; rfl
    · rw [i₆, r₁₀]; rfl

/-- `Initialize` on a device with standalone shaders, from a state without a TLAS:
it runs to its end, and what it leaves. -/
theorem Initialize_spec {F M : Type} (P : Platform F M) (s : State F M)
    (hS : standaloneShadersMissing P = false) (hT : s.m_pTLAS = none) :
    (Initialize P s).fault = none ∧
    events (Initialize P s).state.log = events s.log ++
      ([Event.blasBuild, Event.blasBuild, Event.tlasBuild false, Event.sbtCreate] ++
        List.replicate 54 Event.sbtBind ++ [Event.sbtUpdate]) ∧
    pipelineDepths (Initialize P s).state.log = pipelineDepths s.log ++
      [min s.m_MaxRecursionDepth P.DeviceMaxRecursionDepth % 256] ∧
    (Initialize P s).state.m_MaxRecursionDepth =
      min s.m_MaxRecursionDepth P.DeviceMaxRecursionDepth ∧
    (Initialize P s).state.m_Constants_MaxRecursion =
      min 6 (min s.m_MaxRecursionDepth P.DeviceMaxRecursionDepth) ∧
    (Initialize P s).state.m_pTLAS.isSome = true ∧
    (Initialize P s).state.m_pRayTracingSRB.isSome = true ∧
    (Initialize P s).state.m_pImageBlitSRB.isSome = true ∧
    (Initialize P s).state.m_pSBT.isSome = true ∧
    (Initialize P s).state.m_pColorRT = s.m_pColorRT := by
  obtain ⟨s₀, hI, e₀, d₀, m₀, t₀, c₀⟩ : ∃ s₀ : State F M,
      Initialize P s =
        ((CreateGraphicsPSO s₀).andThen fun s =>
          (CreateRayTracingPSO P s).andThen fun s =>
          (LoadTextures P s).andThen fun s =>
          (CreateCubeBLAS P s).andThen fun s =>
          (CreateProceduralBLAS P s).andThen fun s =>
          (UpdateTLAS P s).andThen fun s =>
          (CreateSBT P s).andThen fun s =>
          Outcome.ok { s with m_Constants_MaxRecursion := min 6 s.m_MaxRecursionDepth }) ∧
      events s₀.log = events s.log ∧ pipelineDepths s₀.log = pipelineDepths s.log ∧
      s₀.m_MaxRecursionDepth = s.m_MaxRecursionDepth ∧ s₀.m_pTLAS = s.m_pTLAS ∧
      s₀.m_pColorRT = s.m_pColorRT := by
    refine ⟨{ (({ s with nextHandle := s.nextHandle + 1 } : State F M).emit
        (Cmd.CreateBuffer ⟨"Constant buffer", P.sizeofConstants⟩)) with
      m_ConstantsCB := some ⟨s.nextHandle, ⟨"Constant buffer", P.sizeofConstants⟩⟩ },
      ?_, ?_, ?_, ?_, ?_, ?_⟩
    · simp only [Initialize, hS, Bool.false_eq_true, if_false]
      rfl
    all_goals
      simp [State.fresh, State.emit, events, pipelineDepths, List.filterMap_append, Cmd.event]
  obtain ⟨g₁, g₂, g₃, g₄, g₅, g₆, g₇, g₈⟩ := CreateGraphicsPSO_spec s₀
  obtain ⟨p₁, p₂, p₃, p₄, p₅, p₆, p₇, p₈⟩ :=
    CreateRayTracingPSO_spec P (CreateGraphicsPSO s₀).state
  obtain ⟨l₁, l₂, l₃, l₄, l₅, l₆, l₇, l₈⟩ := LoadTextures_spec P _ p₅
  obtain ⟨c₁, c₂, c₃, c₄, c₅, c₆, c₇, c₈⟩ := CreateCubeBLAS_spec P _ (by rw [l₅]; exact p₅)
  obtain ⟨b₁, b₂, b₃, b₄, b₅, b₆, b₇, b₈⟩ :=
    CreateProceduralBLAS_spec P _ (by rw [c₅, l₅]; exact p₅)
  obtain ⟨u₁, u₂, u₃, u₄, u₅, u₆, u₇, u₈⟩ :=
    UpdateTLAS_spec P _ (Or.inr (by rw [b₅, c₅, l₅]; exact p₅))
  obtain ⟨x₁, x₂, x₃, x₄, x₅, x₆, x₇, x₈, x₉⟩ := CreateSBT_spec P
    (UpdateTLAS P (CreateProceduralBLAS P (CreateCubeBLAS P (LoadTextures P
      (CreateRayTracingPSO P (CreateGraphicsPSO s₀).state).state).state).state).state).state
  have hN : (CreateProceduralBLAS P (CreateCubeBLAS P (LoadTextures P
      (CreateRayTracingPSO P (CreateGraphicsPSO s₀).state).state).state).state).state.m_pTLAS =
      none := by
    rw [b₇, c₇, l₇, p₇, g₇, t₀, hT]
  rw [hI]
  simp only [andThen_ok _ _ g₁, andThen_ok _ _ p₁, andThen_ok _ _ l₁, andThen_ok _ _ c₁,
    andThen_ok _ _ b₁, andThen_ok _ _ u₁, andThen_ok _ _ x₁, Outcome.ok]
  refine ⟨trivial, ?_, ?_, ?_, ?_, ?_, ?_, ?_, ?_, ?_⟩
  · rw [x₂, u₂, b₂, c₂, l₂, p₂, g₂, e₀, hN]
    simp
  · rw [x₃, u₃, b₃, c₃, l₃, p₃, g₃, d₀, g₆, m₀]
  · rw [x₆, u₆, b₆, c₆, l₆, p₆, g₆, m₀]
  · show min 6 _ = _
    rw [x₆, u₆, b₆, c₆, l₆, p₆, g₆, m₀]
  · rw [x₇]; exact u₇
  · rw [x₅, u₅, b₅, c₅, l₅]; exact p₅
  · rw [x₄, u₄, b₄, c₄, l₄, p₄]; exact g₄
  · exact x₉
  · rw [x₈, u₈, b₈, c₈, l₈, p₈, g₈, c₀]

/-! ## Allocation and scratch size over a run -/

theorem allocations_append {F M : Type} (l₁ l₂ : List (Cmd F M)) :
    allocations (l₁ ++ l₂) = allocations l₁ ++ allocations l₂ := by
  simp [allocations, List.filterMap_append]

/-- The first call, with none of the three objects in place, creates the TLAS, the
scratch buffer and the instance buffer, in this order. -/
theorem UpdateTLAS_first {F M : Type} (P : Platform F M) (s : State F M)
    (hT : s.m_pTLAS = none) (hS : s.m_ScratchBuffer = none) (hI : s.m_InstanceBuffer = none)
    (hR : s.m_pRayTracingSRB.isSome) :
    (UpdateTLAS P s).state.m_pTLAS.isSome = true ∧
    (UpdateTLAS P s).state.m_ScratchBuffer.isSome = true ∧
    (UpdateTLAS P s).state.m_InstanceBuffer.isSome = true ∧
    allocations (UpdateTLAS P s).state.log = allocations s.log ++
      [none, some "TLAS Scratch Buffer", some "TLAS Instance Buffer"] := by
  obtain ⟨cb, cab, bab, bpso, bsrb, rpso, rsrb, cube, proc, tlas, scratch, instb, sbt, rt,
    depth, time, mr, log, nh⟩ := s
  simp only at hT hS hI
  subst hT hS hI
  cases rsrb with
  | none => simp at hR
  | some srb =>
    simp [UpdateTLAS, UpdateTLAS_createTLAS, UpdateTLAS_createScratch,
      UpdateTLAS_createInstanceBuffer, Outcome.andThen, Outcome.ok, Outcome.crash,
      State.emit, State.fresh, allocations, List.filterMap_append]

/-- A call with the three objects in place keeps them and creates nothing. -/
theorem UpdateTLAS_steady {F M : Type} (P : Platform F M) (s : State F M)
    (hT : s.m_pTLAS.isSome) (hS : s.m_ScratchBuffer.isSome) (hI : s.m_InstanceBuffer.isSome) :
    (UpdateTLAS P s).state.m_pTLAS = s.m_pTLAS ∧
    (UpdateTLAS P s).state.m_ScratchBuffer = s.m_ScratchBuffer ∧
    (UpdateTLAS P s).state.m_InstanceBuffer = s.m_InstanceBuffer ∧
    allocations (UpdateTLAS P s).state.log = allocations s.log := by
  obtain ⟨cb, cab, bab, bpso, bsrb, rpso, rsrb, cube, proc, tlas, scratch, instb, sbt, rt,
    depth, time, mr, log, nh⟩ := s
  cases tlas with
  | none => simp at hT
  | some tl =>
  cases scratch with
  | none => simp at hS
  | some sc =>
  cases instb with
  | none => simp at hI
  | some ib =>
    simp [UpdateTLAS, UpdateTLAS_createTLAS, UpdateTLAS_createScratch,
      UpdateTLAS_createInstanceBuffer, Outcome.andThen, Outcome.ok, Outcome.crash,
      State.emit, State.fresh, allocations, List.filterMap_append]

theorem runUpdateTLAS_steady {F M : Type} (P : Platform F M) (ts : List F) (s : State F M)
    (hT : s.m_pTLAS.isSome) (hS : s.m_ScratchBuffer.isSome) (hI : s.m_InstanceBuffer.isSome) :
    (runUpdateTLAS P ts s).state.m_pTLAS = s.m_pTLAS ∧
    (runUpdateTLAS P ts s).state.m_ScratchBuffer = s.m_ScratchBuffer ∧
    (runUpdateTLAS P ts s).state.m_InstanceBuffer = s.m_InstanceBuffer ∧
    allocations (runUpdateTLAS P ts s).state.log = allocations s.log := by
  induction ts generalizing s with
  | nil => simp [runUpdateTLAS, Outcome.ok]
  | cons t ts ih =>
    obtain ⟨u₁, u₂, u₃, u₄⟩ := UpdateTLAS_steady P (s.setTime t) hT hS hI
    rw [runUpdateTLAS_cons P t ts s (Or.inl hT)]
    obtain ⟨i₁, i₂, i₃, i₄⟩ := ih (UpdateTLAS P (s.setTime t)).state
      (by rw [u₁]; exact hT) (by rw [u₂]; exact hS) (by rw [u₃]; exact hI)
    exact ⟨by rw [i₁, u₁]; rfl, by rw [i₂, u₂]; rfl, by rw [i₃, u₃]; rfl, by rw [i₄, u₄]; rfl⟩

/-- The scratch buffer every `BuildTLAS` of a run receives has the size
`max(Build, Update)`, when the buffer the run starts with (if any) has. -/
theorem runUpdateTLAS_scratch {F M : Type} (P : Platform F M) (ts : List F) (s : State F M)
    (h : s.m_pTLAS.isSome ∨ s.m_pRayTracingSRB.isSome)
    (hS : ∀ b, s.m_ScratchBuffer = some b →
      b.Desc.Size = max P.tlasScratch.Build P.tlasScratch.Update) :
    ∀ a ∈ buildTLASCalls (issued s (runUpdateTLAS P ts s).state),
      a.pScratchBuffer.map (fun b => b.Desc.Size) =
        some (max P.tlasScratch.Build P.tlasScratch.Update) := by
  induction ts generalizing s with
  | nil =>
    intro a ha
    simp [runUpdateTLAS, Outcome.ok, issued, buildTLASCalls] at ha
  | cons t ts ih =>
    intro a ha
    have hc : buildTLASCalls (issued s (UpdateTLAS P (s.setTime t)).state) = _ :=
      (UpdateTLAS_calls P (s.setTime t) h).1
    have h₂ := (UpdateTLAS_handles P (s.setTime t) h).2.1
    have e : ∀ b, (UpdateTLAS P (s.setTime t)).state.m_ScratchBuffer = some b →
        b.Desc.Size = max P.tlasScratch.Build P.tlasScratch.Update := by
      intro b hb
      rw [hb] at h₂
      cases hs : s.m_ScratchBuffer with
      | none =>
        have hs' : (s.setTime t).m_ScratchBuffer = none := hs
        rw [hs'] at h₂
        simp only [Option.map_some', Option.map_none', Option.getD_none, Option.some.injEq] at h₂
        rw [h₂]
      | some b₀ =>
        have hs' : (s.setTime t).m_ScratchBuffer = some b₀ := hs
        rw [hs'] at h₂
        simp only [Option.map_some', Option.getD_some, Option.some.injEq] at h₂
        rw [h₂]
        exact hS b₀ hs
    rw [runUpdateTLAS_issued P t ts s h, buildTLASCalls_append, hc, List.mem_append] at ha
    rcases ha with ha | ha
    · rw [List.mem_singleton] at ha
      subst ha
      cases hb : (UpdateTLAS P (s.setTime t)).state.m_ScratchBuffer with
      | none => rw [hb] at h₂; cases h₂
      | some b => simp [UpdateTLAS_attribs, hb, e b hb]
    · exact ih _ (Or.inl (UpdateTLAS_isSome P (s.setTime t) h)) e a ha


/-! ## The claims -/

set_option maxRecDepth 100000

/-- C1: in a run of `n >= 1` calls of `UpdateTLAS` that starts with `m_pTLAS` null
(and the shader resource binding in place, as it is when `Initialize` makes the first
call), whatever the animation time of each call, no call faults and every call issues
exactly one `BuildTLAS`, the first with `Update = false` and every later one with
`Update = true`; so no update is issued before a build. -/
theorem C1_first_build_then_updates {F M : Type} (P : Platform F M) (s : State F M)
    (times : List F) (hT : s.m_pTLAS = none) (hR : s.m_pRayTracingSRB.isSome)
    (hn : 1 ≤ times.length) :
    (runUpdateTLAS P times s).fault = none ∧
    buildTLASFlags (issued s (runUpdateTLAS P times s).state) =
      false :: List.replicate (times.length - 1) true := by
  cases times with
  | nil => simp at hn
  | cons t ts =>
    refine ⟨(runUpdateTLAS_log P (t :: ts) s (Or.inr hR)).1, ?_⟩
    rw [runUpdateTLAS_flags P t ts s (Or.inr hR), hT]
    simp

/-- C1 at three calls from the state `CreateRayTracingPSO` leaves. -/
theorem C1_first_build_then_updates_witness :
    samplePipelineState.m_pTLAS = none ∧
    samplePipelineState.m_pRayTracingSRB.isSome = true ∧
    1 ≤ [FExpr.lit 0, FExpr.lit 1, FExpr.lit 2].length ∧
    (runUpdateTLAS samplePlatform [FExpr.lit 0, FExpr.lit 1, FExpr.lit 2]
      samplePipelineState).fault = none ∧
    buildTLASFlags (issued samplePipelineState
      (runUpdateTLAS samplePlatform [FExpr.lit 0, FExpr.lit 1, FExpr.lit 2]
        samplePipelineState).state) =
      false :: List.replicate ([FExpr.lit 0, FExpr.lit 1, FExpr.lit 2].length - 1) true :=
  ⟨rfl, rfl, by decide,
    C1_first_build_then_updates samplePlatform
      samplePipelineState
      [FExpr.lit 0, FExpr.lit 1, FExpr.lit 2] rfl rfl (by decide)⟩

/-- C2: in a run of `UpdateTLAS` calls from the state in which neither the TLAS nor
the instance buffer exists, whatever the animation time of each call, there is one
`BuildTLAS` for each call and every one of them submits exactly 34 instances
(`InstanceCount` and the length of the array), to a TLAS created with
`MaxInstanceCount = 34` and with an instance buffer of `TLAS_INSTANCE_DATA_SIZE * 34`
bytes; 34 is `16 + 16 + 2`, and the submitted count does not exceed the reserved
capacity. -/
theorem C2_instance_count_is_capacity {F M : Type} (P : Platform F M) (s : State F M)
    (times : List F) (hT : s.m_pTLAS = none) (hB : s.m_InstanceBuffer = none)
    (hR : s.m_pRayTracingSRB.isSome) :
    NumInstances = 34 ∧ NumLocalCubes + NumLocalSpheres + 2 = 34 ∧
    (buildTLASCalls (issued s (runUpdateTLAS P times s).state)).length = times.length ∧
    ∀ a ∈ buildTLASCalls (issued s (runUpdateTLAS P times s).state),
      a.InstanceCount = 34 ∧ a.pInstances.length = 34 ∧
      (∃ tlas buf, a.pTLAS = some tlas ∧ a.pInstanceBuffer = some buf ∧
        tlas.Desc.MaxInstanceCount = 34 ∧
        buf.Desc.Size = P.TLAS_INSTANCE_DATA_SIZE * 34 ∧
        a.InstanceCount ≤ tlas.Desc.MaxInstanceCount) := by
  refine ⟨rfl, rfl, ?_, ?_⟩
  · cases times with
    | nil => simp [runUpdateTLAS, Outcome.ok, issued, buildTLASCalls]
    | cons t ts =>
      have hf := runUpdateTLAS_flags P t ts s (Or.inr hR)
      have hl := congrArg List.length hf
      simpa [buildTLASFlags] using hl
  · intro a ha
    obtain ⟨h₁, h₂, h₃, h₄⟩ := runUpdateTLAS_capacity P times s (Or.inr hR)
      (fun t ht => by rw [hT] at ht; cases ht) (fun b hb => by rw [hB] at hb; cases hb) a ha
    refine ⟨h₁, h₂, ?_⟩
    cases ht : a.pTLAS with
    | none => rw [ht] at h₃; cases h₃
    | some tlas =>
      cases hb : a.pInstanceBuffer with
      | none => rw [hb] at h₄; cases h₄
      | some buf =>
        rw [ht] at h₃
        rw [hb] at h₄
        simp only [Option.map_some', Option.some.injEq] at h₃ h₄
        exact ⟨tlas, buf, rfl, rfl, h₃, h₄, by omega⟩

/-- C2 at two frames from the state `CreateRayTracingPSO` leaves. -/
theorem C2_instance_count_is_capacity_witness :
    samplePipelineState.m_pTLAS = none ∧
    samplePipelineState.m_InstanceBuffer = none ∧
    samplePipelineState.m_pRayTracingSRB.isSome = true ∧
    (buildTLASCalls (issued samplePipelineState
      (runUpdateTLAS samplePlatform [FExpr.lit 0, FExpr.lit (1 / 2)]
        samplePipelineState).state)).length = 2 :=
  ⟨rfl, rfl, rfl,
    (C2_instance_count_is_capacity samplePlatform
      samplePipelineState
      [FExpr.lit 0, FExpr.lit (1 / 2)] rfl rfl rfl).2.2.1⟩

/-- C3, evaluated on the code: `Initialize` on a device with standalone shaders runs
to its end, but the 32 ring instances it submitted carry no name (the two assignments
to `InstanceName` are commented out), so 48 of the 50 per-instance binds of `CreateSBT`
fail their lookup, the first for "Cube Instance 1", and the pair (primary ray, first
cube instance) is left unbound; only the shadow ray type resolves for it, to the
table-wide "no hit group" entry. -/
theorem C3_ring_instances_unbound :
    (Initialize samplePlatform sampleStart).fault = none ∧
    (latestInstanceNames (Initialize samplePlatform sampleStart).state.log)[0]? = some none ∧
    (BindingTable.ofLog (Initialize samplePlatform sampleStart).state.log).resolve
      samplePlatform.PRIMARY_RAY_INDEX none = none ∧
    (BindingTable.ofLog (Initialize samplePlatform sampleStart).state.log).resolve
      samplePlatform.SHADOW_RAY_INDEX none = some none ∧
    (BindingTable.ofLog (Initialize samplePlatform sampleStart).state.log).lookupErrors.head? =
      some "Cube Instance 1" ∧
    (BindingTable.ofLog (Initialize samplePlatform sampleStart).state.log).lookupErrors.length =
      48 := by
  decide

/-- C4, evaluated on the code: `Initialize` on a device with standalone shaders
submits instances whose names are 32 times null, then "Ground Instance" and "Glass
Instance", while `CreateSBT` passes "Cube Instance 1..16", "Sphere Instance 1..16"
(twice), "Ground Instance" and "Glass Instance" to `BindHitGroupForInstance`; "Cube
Instance 1" is the name of no submitted instance, and only 2 of the 50 names passed
are. -/
theorem C4_bound_names_missing :
    (Initialize samplePlatform sampleStart).fault = none ∧
    latestInstanceNames (Initialize samplePlatform sampleStart).state.log =
      List.replicate 32 none ++ [some "Ground Instance", some "Glass Instance"] ∧
    (boundInstanceNames (Initialize samplePlatform sampleStart).state.log).map (fun p => p.2) =
      (List.range 16).map (fun i => "Cube Instance " ++ toString (i + 1)) ++
      (List.range 16).map (fun i => "Sphere Instance " ++ toString (i + 1)) ++
      ["Ground Instance", "Glass Instance"] ++
      (List.range 16).map (fun i => "Sphere Instance " ++ toString (i + 1)) ∧
    (samplePlatform.PRIMARY_RAY_INDEX, "Cube Instance 1") ∈
      boundInstanceNames (Initialize samplePlatform sampleStart).state.log ∧
    some "Cube Instance 1" ∉
      latestInstanceNames (Initialize samplePlatform sampleStart).state.log ∧
    ((boundInstanceNames (Initialize samplePlatform sampleStart).state.log).filter
      (fun p => decide (some p.2 ∈
        latestInstanceNames (Initialize samplePlatform sampleStart).state.log))).length = 2 := by
  decide

/-- C5: for a requested depth `m_MaxRecursionDepth` in `[0, 20]` and a device maximum
in `[0, 10]`, `CreateRayTracingPSO` leaves `m_MaxRecursionDepth` equal to
`min(requested, device maximum)`, which does not exceed the device maximum; the one
pipeline it creates stores that same number after the cast to `Uint8`; and a
requested depth of 0 yields 0. -/
theorem C5_recursion_depth_clamped {F M : Type} (P : Platform F M) (s : State F M)
    (hreq : s.m_MaxRecursionDepth ≤ 20) (hdev : P.DeviceMaxRecursionDepth ≤ 10) :
    (CreateRayTracingPSO P s).fault = none ∧
    (CreateRayTracingPSO P s).state.m_MaxRecursionDepth =
      min s.m_MaxRecursionDepth P.DeviceMaxRecursionDepth ∧
    (CreateRayTracingPSO P s).state.m_MaxRecursionDepth ≤ P.DeviceMaxRecursionDepth ∧
    pipelineDepths (issued s (CreateRayTracingPSO P s).state) =
      [(CreateRayTracingPSO P s).state.m_MaxRecursionDepth] ∧
    (s.m_MaxRecursionDepth = 0 →
      (CreateRayTracingPSO P s).state.m_MaxRecursionDepth = 0 ∧
      pipelineDepths (issued s (CreateRayTracingPSO P s).state) = [0]) := by
  have hlt : min s.m_MaxRecursionDepth P.DeviceMaxRecursionDepth % 256 =
      min s.m_MaxRecursionDepth P.DeviceMaxRecursionDepth :=
    Nat.mod_eq_of_lt (by omega)
  have hd : pipelineDepths (issued s (CreateRayTracingPSO P s).state) =
      [min s.m_MaxRecursionDepth P.DeviceMaxRecursionDepth] := by
    simp [CreateRayTracingPSO, clampRecursionDepth, RayTracingPSOInfo, State.emit, State.fresh,
      Outcome.ok, issued, pipelineDepths, hlt]
  have hm : (CreateRayTracingPSO P s).state.m_MaxRecursionDepth =
      min s.m_MaxRecursionDepth P.DeviceMaxRecursionDepth := by
    simp [CreateRayTracingPSO, clampRecursionDepth, State.emit, State.fresh, Outcome.ok]
  refine ⟨?_, hm, ?_, ?_, ?_⟩
  · simp [CreateRayTracingPSO, Outcome.ok]
  · rw [hm]; exact Nat.min_le_right _ _
  · rw [hd, hm]
  · intro h0
    rw [hd, hm, h0]
    simp

/-- C5 at a requested depth of 20 on a device with maximum 10: the depth becomes 10. -/
theorem C5_recursion_depth_clamped_witness :
    (State.start (FExpr.lit 0) 20 : State FExpr MExpr).m_MaxRecursionDepth ≤ 20 ∧
    ({ samplePlatform with DeviceMaxRecursionDepth := 10 } :
      Platform FExpr MExpr).DeviceMaxRecursionDepth ≤ 10 ∧
    (CreateRayTracingPSO { samplePlatform with DeviceMaxRecursionDepth := 10 }
      (State.start (FExpr.lit 0) 20)).state.m_MaxRecursionDepth = min 20 10 :=
  ⟨by decide, by decide,
    (C5_recursion_depth_clamped { samplePlatform with DeviceMaxRecursionDepth := 10 }
      (State.start (FExpr.lit 0) 20) (by decide) (by decide)).2.1⟩

/-- C6: whatever the animation time, the array a call of `UpdateTLAS` submits has
`OPAQUE_GEOM_MASK` (as the 8-bit value of the `Mask` field) on its 32 ring instances
and on the ground instance and `TRANSPARENT_GEOM_MASK` on the glass instance; and,
the two mask constants having no bit in common, the mask test of the ground instance
against a ray restricted to the transparent mask fails, as does that of the glass
instance against a ray restricted to the opaque mask. -/
theorem C6_masks_separate_opaque_and_glass {F M : Type} (P : Platform F M) (s : State F M)
    (h : s.m_pTLAS.isSome ∨ s.m_pRayTracingSRB.isSome)
    (hdisj : P.OPAQUE_GEOM_MASK &&& P.TRANSPARENT_GEOM_MASK = 0) :
    ∃ a, lastBuildTLAS (UpdateTLAS P s).state = some a ∧
      (∀ i, i < 32 → (a.pInstances[i]?).map (fun x => x.Mask) =
        some (P.OPAQUE_GEOM_MASK % 256)) ∧
      (∃ ground glass, a.pInstances[32]? = some ground ∧ a.pInstances[33]? = some glass ∧
        ground.InstanceName = some "Ground Instance" ∧
        glass.InstanceName = some "Glass Instance" ∧
        ground.Mask = P.OPAQUE_GEOM_MASK % 256 ∧
        glass.Mask = P.TRANSPARENT_GEOM_MASK % 256 ∧
        maskTest ground.Mask P.TRANSPARENT_GEOM_MASK = false ∧
        maskTest glass.Mask P.OPAQUE_GEOM_MASK = false) := by
  obtain ⟨a, ha, hi, -⟩ := UpdateTLAS_submitted P s h
  refine ⟨a, ha, ?_, ?_⟩
  · intro i hlt
    rw [hi]
    by_cases hc : i < 16
    · rw [Instances_cube P s i hc]
      simp [cubeBody]
    · obtain ⟨j, rfl⟩ : ∃ j, i = 16 + j := ⟨i - 16, by omega⟩
      rw [Instances_sphere P s j (by omega)]
      simp [sphereBody]
  · refine ⟨_, _, by rw [hi]; exact Instances_ground P s, by rw [hi]; exact Instances_glass P s,
      rfl, rfl, rfl, rfl, ?_, ?_⟩
    · simp [groundBody, maskTest, mask_disjoint _ _ hdisj]
    · simp [glassBody, maskTest, mask_disjoint _ _ (by rw [Nat.and_comm]; exact hdisj)]

/-- C6 on the sample platform (opaque mask 1, transparent mask 2), for the first
call. -/
theorem C6_masks_separate_opaque_and_glass_witness :
    (samplePipelineState.m_pTLAS.isSome ∨
      samplePipelineState.m_pRayTracingSRB.isSome) ∧
    samplePlatform.OPAQUE_GEOM_MASK &&& samplePlatform.TRANSPARENT_GEOM_MASK = 0 ∧
    ∃ a, lastBuildTLAS (UpdateTLAS samplePlatform
        samplePipelineState).state = some a ∧
      (∀ i, i < 32 → (a.pInstances[i]?).map (fun x => x.Mask) = some (1 % 256)) :=
  ⟨Or.inr rfl, by decide,
    (C6_masks_separate_opaque_and_glass samplePlatform
      samplePipelineState (Or.inr rfl) (by decide)).imp
      fun _ ha => ⟨ha.1, ha.2.1⟩⟩

/-- C7: for two calls of `UpdateTLAS` at any two animation times (in states with the
same two BLAS pointers), the submitted instance sequences have the same length and
agree position by position on `InstanceName`, `Mask`, `pBLAS` and `CustomId`; the
transform is the only field left that may differ. -/
theorem C7_topology_stable_across_frames {F M : Type} (P : Platform F M) (s₁ s₂ : State F M)
    (hc : s₁.m_pCubeBLAS = s₂.m_pCubeBLAS)
    (hp : s₁.m_pProceduralBLAS = s₂.m_pProceduralBLAS)
    (h₁ : s₁.m_pTLAS.isSome ∨ s₁.m_pRayTracingSRB.isSome)
    (h₂ : s₂.m_pTLAS.isSome ∨ s₂.m_pRayTracingSRB.isSome) :
    ∃ a₁ a₂, lastBuildTLAS (UpdateTLAS P s₁).state = some a₁ ∧
      lastBuildTLAS (UpdateTLAS P s₂).state = some a₂ ∧
      a₁.pInstances.length = a₂.pInstances.length ∧
      ∀ i : Nat, (a₁.pInstances[i]?).map TLASBuildInstanceData.topology =
        (a₂.pInstances[i]?).map TLASBuildInstanceData.topology := by
  obtain ⟨a₁, ha₁, hi₁, -⟩ := UpdateTLAS_submitted P s₁ h₁
  obtain ⟨a₂, ha₂, hi₂, -⟩ := UpdateTLAS_submitted P s₂ h₂
  refine ⟨a₁, a₂, ha₁, ha₂, ?_, ?_⟩
  · rw [hi₁, hi₂, Instances_length, Instances_length]
  · intro i
    have e := congrArg (fun l => l[i]?) (Instances_topology P s₁ s₂ hc hp)
    simp only [List.getElem?_map] at e
    rw [hi₁, hi₂]
    exact e

/-- C7 for the build at time 0 and the update at time 1 that follows it. -/
theorem C7_topology_stable_across_frames_witness :
    samplePipelineState.m_pCubeBLAS =
      ((UpdateTLAS samplePlatform samplePipelineState).state.setTime (FExpr.lit 1)).m_pCubeBLAS ∧
    ∃ a₁ a₂, lastBuildTLAS (UpdateTLAS samplePlatform samplePipelineState).state = some a₁ ∧
      lastBuildTLAS (UpdateTLAS samplePlatform
        ((UpdateTLAS samplePlatform samplePipelineState).state.setTime (FExpr.lit 1))).state =
          some a₂ ∧
      a₁.pInstances.length = a₂.pInstances.length ∧
      ∀ i : Nat, (a₁.pInstances[i]?).map TLASBuildInstanceData.topology =
        (a₂.pInstances[i]?).map TLASBuildInstanceData.topology :=
  ⟨rfl, C7_topology_stable_across_frames samplePlatform samplePipelineState
    ((UpdateTLAS samplePlatform samplePipelineState).state.setTime (FExpr.lit 1))
    rfl rfl (Or.inr rfl) (Or.inl rfl)⟩

/-- C8: two calls of `UpdateTLAS` in states with the same `m_AnimationTime` and the
same two BLAS pointers submit the same instance array, transforms included, and the
same instance count of 34, whatever else differs between the states; in particular
when one call is the first and builds (`Update = false`) and the other is a later one
and updates (`Update = true`). -/
theorem C8_instances_depend_on_time_only {F M : Type} (P : Platform F M) (s₁ s₂ : State F M)
    (ht : s₁.m_AnimationTime = s₂.m_AnimationTime)
    (hc : s₁.m_pCubeBLAS = s₂.m_pCubeBLAS)
    (hp : s₁.m_pProceduralBLAS = s₂.m_pProceduralBLAS)
    (h₁ : s₁.m_pTLAS.isSome ∨ s₁.m_pRayTracingSRB.isSome)
    (h₂ : s₂.m_pTLAS.isSome ∨ s₂.m_pRayTracingSRB.isSome) :
    ∃ a₁ a₂, lastBuildTLAS (UpdateTLAS P s₁).state = some a₁ ∧
      lastBuildTLAS (UpdateTLAS P s₂).state = some a₂ ∧
      a₁.Update = s₁.m_pTLAS.isSome ∧ a₂.Update = s₂.m_pTLAS.isSome ∧
      a₁.pInstances = a₂.pInstances ∧ a₁.pInstances.length = 34 ∧
      a₁.InstanceCount = 34 ∧ a₂.InstanceCount = 34 := by
  obtain ⟨a₁, ha₁, hi₁, hu₁, hn₁, -⟩ := UpdateTLAS_submitted P s₁ h₁
  obtain ⟨a₂, ha₂, hi₂, hu₂, hn₂, -⟩ := UpdateTLAS_submitted P s₂ h₂
  refine ⟨a₁, a₂, ha₁, ha₂, hu₁, hu₂, ?_, ?_, hn₁, hn₂⟩
  · rw [hi₁, hi₂]
    exact Instances_congr P s₁ s₂ ht hc hp
  · rw [hi₁]
    exact Instances_length P s₁

/-- C8 for the first call (a build) and a call at the same time in the state the
first call leaves (an update). -/
theorem C8_instances_depend_on_time_only_witness :
    samplePipelineState.m_AnimationTime =
      (UpdateTLAS samplePlatform samplePipelineState).state.m_AnimationTime ∧
    samplePipelineState.m_pTLAS.isSome = false ∧
    (UpdateTLAS samplePlatform samplePipelineState).state.m_pTLAS.isSome = true ∧
    ∃ a₁ a₂, lastBuildTLAS (UpdateTLAS samplePlatform samplePipelineState).state = some a₁ ∧
      lastBuildTLAS (UpdateTLAS samplePlatform
        (UpdateTLAS samplePlatform samplePipelineState).state).state = some a₂ ∧
      a₁.Update = samplePipelineState.m_pTLAS.isSome ∧
      a₂.Update = (UpdateTLAS samplePlatform samplePipelineState).state.m_pTLAS.isSome ∧
      a₁.pInstances = a₂.pInstances ∧ a₁.pInstances.length = 34 ∧
      a₁.InstanceCount = 34 ∧ a₂.InstanceCount = 34 :=
  ⟨rfl, rfl, rfl, C8_instances_depend_on_time_only samplePlatform samplePipelineState
    (UpdateTLAS samplePlatform samplePipelineState).state rfl rfl rfl (Or.inr rfl) (Or.inl rfl)⟩

/-- C10, evaluated on the code: on a device without the standalone shaders
capability `Initialize` only reports "unsupported" and creates nothing, every pointer
stays null.  But `Render` has no capability test: the first frame after it (the window
resized to 800 by 600 in between) calls `UpdateTLAS`, which issues `CreateTLAS`, sets
`m_pTLAS`, and then calls through the null `m_pRayTracingSRB`.  The frame ends in that
fault; the feature is attempted, not disabled, and the build and the trace are not
reached only because of the fault. -/
theorem C10_render_not_gated :
    standaloneShadersMissing unsupportedPlatform = true ∧
    (Initialize unsupportedPlatform sampleStart).fault = none ∧
    (Initialize unsupportedPlatform sampleStart).state.log.map Cmd.isCreation = [false] ∧
    (Initialize unsupportedPlatform sampleStart).state.m_pTLAS = none ∧
    (Initialize unsupportedPlatform sampleStart).state.m_pRayTracingSRB = none ∧
    (Render unsupportedPlatform
      ((WindowResize 800 600 (Initialize unsupportedPlatform sampleStart).state).state.setTime
        (FExpr.lit 1))).fault = some (Fault.nullDeref "m_pRayTracingSRB") ∧
    (Render unsupportedPlatform
      ((WindowResize 800 600 (Initialize unsupportedPlatform sampleStart).state).state.setTime
        (FExpr.lit 1))).state.m_pTLAS.isSome = true ∧
    (issued (WindowResize 800 600 (Initialize unsupportedPlatform sampleStart).state).state
      (Render unsupportedPlatform
        ((WindowResize 800 600 (Initialize unsupportedPlatform sampleStart).state).state.setTime
          (FExpr.lit 1))).state).map Cmd.isCreation = [true] ∧
    (Render unsupportedPlatform
      ((WindowResize 800 600 (Initialize unsupportedPlatform sampleStart).state).state.setTime
        (FExpr.lit 1))).state.log.map Cmd.isBuildOrTrace = [false, false, false] := by
  decide

/-- C11, evaluated on the code: in the array `Initialize` submits, the first two
instances (two cubes) both have a null `InstanceName`, as have all 32 ring instances
(the assignments that would name them are commented out); the names of the frame are
not pairwise distinct. -/
theorem C11_ring_names_collide :
    (Initialize samplePlatform sampleStart).fault = none ∧
    (latestInstanceNames (Initialize samplePlatform sampleStart).state.log).length = 34 ∧
    (latestInstanceNames (Initialize samplePlatform sampleStart).state.log)[0]? = some none ∧
    (latestInstanceNames (Initialize samplePlatform sampleStart).state.log)[1]? = some none ∧
    (latestInstanceNames (Initialize samplePlatform sampleStart).state.log).count none = 32 ∧
    ¬ (latestInstanceNames (Initialize samplePlatform sampleStart).state.log).Nodup := by
  decide

/-- C12: on a device with standalone shaders, `Initialize` of the freshly constructed
object, a resize to a non-empty window and any number of frames run without a fault
and issue, in this order: the two BLAS builds, the first TLAS build
(`Update = false`), the creation of the SBT with its 54 bind calls and its upload, and
then for each frame a TLAS update followed by the trace dispatch.  The SBT is created
once and uploaded once, no frame binds anything, and `m_pSBT` is the table of
`Initialize` after every frame. -/
theorem C12_command_order {F M : Type} (P : Platform F M) (time : F) (depth : Nat)
    (Width Height : Nat) (times : List F) (hS : standaloneShadersMissing P = false)
    (hW : 0 < Width) (hH : 0 < Height) :
    (runRender P times
      (WindowResize Width Height (Initialize P (State.start time depth)).state).state).fault =
        none ∧
    events (runRender P times
      (WindowResize Width Height (Initialize P (State.start time depth)).state).state).state.log =
      [Event.blasBuild, Event.blasBuild, Event.tlasBuild false, Event.sbtCreate] ++
        List.replicate 54 Event.sbtBind ++ [Event.sbtUpdate] ++
        (times.map fun _ => [Event.tlasBuild true, Event.trace]).flatten ∧
    (events (Initialize P (State.start time depth)).state.log).count Event.sbtCreate = 1 ∧
    (events (Initialize P (State.start time depth)).state.log).count Event.sbtUpdate = 1 ∧
    (Initialize P (State.start time depth)).state.m_pSBT.isSome = true ∧
    (runRender P times
      (WindowResize Width Height (Initialize P (State.start time depth)).state).state).state.m_pSBT =
      (WindowResize Width Height (Initialize P (State.start time depth)).state).state.m_pSBT := by
  obtain ⟨-, i₂, -, -, -, i₆, i₇, i₈, i₉, -⟩ :=
    Initialize_spec P (State.start time depth) hS rfl
  obtain ⟨-, w₂, -, w₄, w₅, -, -, w₈, w₉⟩ :=
    WindowResize_spec Width Height (Initialize P (State.start time depth)).state hW hH
  obtain ⟨r₁, r₂, -, -, -, r₆⟩ := runRender_spec P times
    (WindowResize Width Height (Initialize P (State.start time depth)).state).state
    (by rw [w₈]; exact i₆) (by rw [w₅]; exact i₇) w₉ (by rw [w₄]; exact i₈)
  have e : events (State.start time depth : State F M).log = [] := rfl
  refine ⟨r₁, ?_, ?_, ?_, i₉, r₆⟩
  · rw [r₂, w₂, i₂, e]
    simp
  · rw [i₂, e]
    decide
  · rw [i₂, e]
    decide

/-- C12 on the sample platform, a window of 800 by 600 and two frames. -/
theorem C12_command_order_witness :
    standaloneShadersMissing samplePlatform = false ∧ 0 < 800 ∧ 0 < 600 ∧
    (runRender samplePlatform [FExpr.lit 0, FExpr.lit 1]
      (WindowResize 800 600 (Initialize samplePlatform (State.start (FExpr.lit 0) 8)).state).state).fault =
        none :=
  ⟨by decide, by decide, by decide,
    (C12_command_order samplePlatform (FExpr.lit 0) 8 800 600 [FExpr.lit 0, FExpr.lit 1]
      (by decide) (by decide) (by decide)).1⟩

/-- C13, evaluated on the code: `CreateSBT` does issue the table-wide shadow bind
before the 16 sphere shadow binds, and the cubes, the ground and the glass resolve to
the table-wide "no hit group" entry for the shadow ray type; but the sphere instances
were submitted without a name, so the 16 binds of "SphereShadowHit" to "Sphere
Instance 1..16" fail their lookup, the table holds no shadow entry for an instance,
and a sphere instance resolves to the table-wide entry as well, not to
"SphereShadowHit". -/
theorem C13_sphere_shadow_binding_lost :
    (Initialize samplePlatform sampleStart).fault = none ∧
    bindsOfRay samplePlatform.SHADOW_RAY_INDEX (Initialize samplePlatform sampleStart).state.log =
      (none, none) :: (List.range 16).map
        (fun i => (some ("Sphere Instance " ++ toString (i + 1)), some "SphereShadowHit")) ∧
    (latestInstanceNames (Initialize samplePlatform sampleStart).state.log)[16]? = some none ∧
    (BindingTable.ofLog (Initialize samplePlatform sampleStart).state.log).resolve
      samplePlatform.SHADOW_RAY_INDEX none = some none ∧
    (BindingTable.ofLog (Initialize samplePlatform sampleStart).state.log).resolve
      samplePlatform.SHADOW_RAY_INDEX (some "Ground Instance") = some none ∧
    (BindingTable.ofLog (Initialize samplePlatform sampleStart).state.log).resolve
      samplePlatform.SHADOW_RAY_INDEX (some "Glass Instance") = some none ∧
    "Sphere Instance 1" ∈
      (BindingTable.ofLog (Initialize samplePlatform sampleStart).state.log).lookupErrors ∧
    (BindingTable.ofLog (Initialize samplePlatform sampleStart).state.log).entries.filter
      (fun e => e.1.1 == samplePlatform.SHADOW_RAY_INDEX) = [] := by
  decide

/-- C14: in a run of `UpdateTLAS` calls from the state in which `m_pTLAS`,
`m_ScratchBuffer` and `m_InstanceBuffer` are null, the first call creates the three
objects, and after any number of further calls the three members are still the
objects of the first call and the run as a whole has created one TLAS and two
buffers, those of the first call. -/
theorem C14_created_once {F M : Type} (P : Platform F M) (s : State F M) (t : F)
    (ts : List F) (hT : s.m_pTLAS = none) (hS : s.m_ScratchBuffer = none)
    (hI : s.m_InstanceBuffer = none) (hR : s.m_pRayTracingSRB.isSome) :
    (UpdateTLAS P (s.setTime t)).state.m_pTLAS.isSome = true ∧
    (UpdateTLAS P (s.setTime t)).state.m_ScratchBuffer.isSome = true ∧
    (UpdateTLAS P (s.setTime t)).state.m_InstanceBuffer.isSome = true ∧
    allocations (UpdateTLAS P (s.setTime t)).state.log = allocations s.log ++
      [none, some "TLAS Scratch Buffer", some "TLAS Instance Buffer"] ∧
    (runUpdateTLAS P (t :: ts) s).fault = none ∧
    (runUpdateTLAS P (t :: ts) s).state.m_pTLAS = (UpdateTLAS P (s.setTime t)).state.m_pTLAS ∧
    (runUpdateTLAS P (t :: ts) s).state.m_ScratchBuffer =
      (UpdateTLAS P (s.setTime t)).state.m_ScratchBuffer ∧
    (runUpdateTLAS P (t :: ts) s).state.m_InstanceBuffer =
      (UpdateTLAS P (s.setTime t)).state.m_InstanceBuffer ∧
    allocations (runUpdateTLAS P (t :: ts) s).state.log =
      allocations (UpdateTLAS P (s.setTime t)).state.log := by
  obtain ⟨f₁, f₂, f₃, f₄⟩ := UpdateTLAS_first P (s.setTime t) hT hS hI hR
  have hf := (runUpdateTLAS_log P (t :: ts) s (Or.inr hR)).1
  rw [runUpdateTLAS_cons P t ts s (Or.inr hR)] at hf ⊢
  obtain ⟨r₁, r₂, r₃, r₄⟩ :=
    runUpdateTLAS_steady P ts (UpdateTLAS P (s.setTime t)).state f₁ f₂ f₃
  exact ⟨f₁, f₂, f₃, f₄, hf, r₁, r₂, r₃, r₄⟩

/-- C14 for three calls from the state `CreateRayTracingPSO` leaves. -/
theorem C14_created_once_witness :
    samplePipelineState.m_pTLAS = none ∧ samplePipelineState.m_ScratchBuffer = none ∧
    samplePipelineState.m_InstanceBuffer = none ∧
    samplePipelineState.m_pRayTracingSRB.isSome = true ∧
    allocations (runUpdateTLAS samplePlatform [FExpr.lit 0, FExpr.lit 1, FExpr.lit 2]
      samplePipelineState).state.log =
      allocations (UpdateTLAS samplePlatform
        (samplePipelineState.setTime (FExpr.lit 0))).state.log :=
  ⟨rfl, rfl, rfl, rfl,
    (C14_created_once samplePlatform samplePipelineState (FExpr.lit 0)
      [FExpr.lit 1, FExpr.lit 2] rfl rfl rfl rfl).2.2.2.2.2.2.2.2⟩

/-- C15: in a run of `UpdateTLAS` calls from a state in which `m_ScratchBuffer` is
null (as it is at the first call), every `BuildTLAS` receives a scratch buffer of size
`max(Build, Update)` of the sizes the TLAS reports, which is at least the size the
mode of that call needs: `Build` for a build, `Update` for an update. -/
theorem C15_scratch_large_enough {F M : Type} (P : Platform F M) (s : State F M)
    (times : List F) (hS : s.m_ScratchBuffer = none) (hR : s.m_pRayTracingSRB.isSome) :
    (buildTLASCalls (issued s (runUpdateTLAS P times s).state)).length = times.length ∧
    ∀ a ∈ buildTLASCalls (issued s (runUpdateTLAS P times s).state),
      ∃ buf, a.pScratchBuffer = some buf ∧
        buf.Desc.Size = max P.tlasScratch.Build P.tlasScratch.Update ∧
        (if a.Update then P.tlasScratch.Update else P.tlasScratch.Build) ≤ buf.Desc.Size := by
  constructor
  · cases times with
    | nil => simp [runUpdateTLAS, Outcome.ok, issued, buildTLASCalls]
    | cons t ts =>
      have hl := congrArg List.length (runUpdateTLAS_flags P t ts s (Or.inr hR))
      simpa [buildTLASFlags] using hl
  · intro a ha
    have h := runUpdateTLAS_scratch P times s (Or.inr hR)
      (fun b hb => by rw [hS] at hb; cases hb) a ha
    cases hb : a.pScratchBuffer with
    | none => rw [hb] at h; cases h
    | some buf =>
      rw [hb] at h
      simp only [Option.map_some', Option.some.injEq] at h
      refine ⟨buf, rfl, h, ?_⟩
      rw [h]
      split
      · exact Nat.le_max_right _ _
      · exact Nat.le_max_left _ _

/-- C15 for two calls on the sample platform (build needs 8192, update 2048). -/
theorem C15_scratch_large_enough_witness :
    samplePipelineState.m_ScratchBuffer = none ∧
    samplePipelineState.m_pRayTracingSRB.isSome = true ∧
    (buildTLASCalls (issued samplePipelineState
      (runUpdateTLAS samplePlatform [FExpr.lit 0, FExpr.lit 1]
        samplePipelineState).state)).length = [FExpr.lit 0, FExpr.lit 1].length :=
  ⟨rfl, rfl,
    (C15_scratch_large_enough samplePlatform samplePipelineState [FExpr.lit 0, FExpr.lit 1]
      rfl rfl).1⟩

/-- C16 as stated fails on the sphere ring: read over the reals, the first sphere
instance at time 0 has the vertical coordinate -2, while `sin(0 + 0)` is 0. -/
theorem C16_sphere_height_is_constant :
    ((Instances (samplePlatform.withOps
        (MathOps.mk (fun i => (i : ℝ)) (fun q => (q : ℝ)) Real.pi (fun a b => a + b)
          (fun a b => a * b) (fun a b => a / b) Real.cos Real.sin (fun _ => ())
          (fun _ _ _ => ()) (fun _ _ => ()) ()))
      (State.start (0 : ℝ) 8))[16]?).map (fun inst => inst.Transform.translation.2.1) =
      some (-2 : ℝ) ∧
    Real.sin ((0 : ℝ) + ((0 : Int) : ℝ)) = 0 ∧ (-2 : ℝ) ≠ 0 := by
  refine ⟨?_, by simp, by norm_num⟩
  rw [show (16 : Nat) = 16 + 0 from rfl, Instances_sphere _ _ 0 (by decide)]
  simp [sphereBody, InstanceMatrix.SetTranslation, Platform.withOps]

/-- C16, amended: read over the reals, for every time `t` and every slot `i` of the
16, the array a call of `UpdateTLAS` submits has the cube of slot `i` at
`x = 5 cos(2 pi i / 16)`, `y = sin(t + i)`, `z = 5 sin(2 pi i / 16)` and the sphere
of slot `i` at `x = 7 cos(2 pi i / 16)`, `y = -2`, `z = 7 sin(2 pi i / 16)`: both
rings have the angular position `2 pi i / 16`, the cubes bob with `sin(t + i)`, the
spheres stay at height -2. -/
theorem C16_ring_positions {M : Type} (P : Platform ℝ M) (s : State ℝ M) (i : Nat)
    (hO : P.ops.IsReal) (h : s.m_pTLAS.isSome ∨ s.m_pRayTracingSRB.isSome) (hi : i < 16) :
    ∃ a, lastBuildTLAS (UpdateTLAS P s).state = some a ∧
      (a.pInstances[i]?).map (fun inst => inst.Transform.translation) =
        some (5 * Real.cos (2 * Real.pi * i / 16), Real.sin (s.m_AnimationTime + i),
          5 * Real.sin (2 * Real.pi * i / 16)) ∧
      (a.pInstances[16 + i]?).map (fun inst => inst.Transform.translation) =
        some (7 * Real.cos (2 * Real.pi * i / 16), -2,
          7 * Real.sin (2 * Real.pi * i / 16)) := by
  obtain ⟨a, ha, hp, -⟩ := UpdateTLAS_submitted P s h
  obtain ⟨o₁, o₂, o₃, o₄, o₅, o₆, o₇, o₈⟩ := hO
  refine ⟨a, ha, ?_, ?_⟩
  · rw [hp, Instances_cube P s i hi]
    simp [cubeBody, InstanceMatrix.SetTranslation, InstanceMatrix.SetRotation, o₁, o₂, o₃,
      o₄, o₅, o₆, o₇, o₈, NumLocalCubes, mul_comm]
  · rw [hp, Instances_sphere P s i hi]
    simp [sphereBody, InstanceMatrix.SetTranslation, o₁, o₂, o₃, o₄, o₅, o₆, o₇, o₈,
      NumLocalSpheres, mul_comm]


/-- C16 (amended) over the reals at time 0, slot 3, for a call that updates. -/
theorem C16_ring_positions_witness :
    (samplePlatform.withOps
        (MathOps.mk (fun i => (i : ℝ)) (fun q => (q : ℝ)) Real.pi (fun a b => a + b)
          (fun a b => a * b) (fun a b => a / b) Real.cos Real.sin (fun _ => ())
          (fun _ _ _ => ()) (fun _ _ => ()) ())).ops.IsReal ∧
    3 < 16 ∧
    ∃ a, lastBuildTLAS (UpdateTLAS (samplePlatform.withOps
        (MathOps.mk (fun i => (i : ℝ)) (fun q => (q : ℝ)) Real.pi (fun a b => a + b)
          (fun a b => a * b) (fun a b => a / b) Real.cos Real.sin (fun _ => ())
          (fun _ _ _ => ()) (fun _ _ => ()) ()))
      { (State.start (0 : ℝ) 8) with m_pTLAS := some ⟨0, TLASDesc34⟩ }).state = some a ∧
      (a.pInstances[16 + 3]?).map (fun inst => inst.Transform.translation.2.1) =
        some (-2 : ℝ) :=
  ⟨⟨fun _ => rfl, fun _ => rfl, rfl, fun _ _ => rfl, fun _ _ => rfl, fun _ _ => rfl,
      fun _ => rfl, fun _ => rfl⟩,
    by decide,
    (C16_ring_positions (samplePlatform.withOps
        (MathOps.mk (fun i => (i : ℝ)) (fun q => (q : ℝ)) Real.pi (fun a b => a + b)
          (fun a b => a * b) (fun a b => a / b) Real.cos Real.sin (fun _ => ())
          (fun _ _ _ => ()) (fun _ _ => ()) ()))
      { (State.start (0 : ℝ) 8) with m_pTLAS := some ⟨0, TLASDesc34⟩ } 3
      ⟨fun _ => rfl, fun _ => rfl, rfl, fun _ _ => rfl, fun _ _ => rfl, fun _ _ => rfl,
        fun _ => rfl, fun _ => rfl⟩ (Or.inl rfl) (by decide)).imp
      fun a ha => ⟨ha.1, by
        have h := congrArg (Option.map fun p : ℝ × ℝ × ℝ => p.2.1) ha.2.2
        simpa [Option.map_map, Function.comp_def] using h⟩⟩

/-- C17: `CreateCubeBLAS` creates the BLAS from the one triangle descriptor `Tri` and
builds it from the one triangle data record, whose geometry name, vertex count,
vertex value type, vertex component count, primitive count and index type are those
of `Tri`; the primitive count is `NumIndices / 3`; and the vertex stride is 12, the
size of `float3`, which is 3 components of the 4 bytes of `VT_FLOAT32`. -/
theorem C17_cube_build_matches_descriptor {F M : Type} (P : Platform F M) (s : State F M)
    (hR : s.m_pRayTracingSRB.isSome) :
    (CreateCubeBLAS P s).fault = none ∧
    ∃ (vb ib blas : Handle) (scratch : Buffer),
      createdBLAS (CreateCubeBLAS P s).state.log =
        createdBLAS s.log ++ [BottomLevelASDesc.mk "Cube BLAS" [CubeTriangleDesc P] []] ∧
      buildBLASCalls (CreateCubeBLAS P s).state.log =
        buildBLASCalls s.log ++
          [BuildBLASAttribs.mk (some blas) [CubeTriangleData (CubeTriangleDesc P) vb ib] []
            (some scratch)] ∧
      (CreateCubeBLAS P s).state.m_pCubeBLAS = some blas ∧
      (CubeTriangleData (CubeTriangleDesc P) vb ib).GeometryName =
        (CubeTriangleDesc P).GeometryName ∧
      (CubeTriangleData (CubeTriangleDesc P) vb ib).VertexCount =
        (CubeTriangleDesc P).MaxVertexCount ∧
      (CubeTriangleData (CubeTriangleDesc P) vb ib).VertexValueType =
        (CubeTriangleDesc P).VertexValueType ∧
      (CubeTriangleData (CubeTriangleDesc P) vb ib).VertexComponentCount =
        (CubeTriangleDesc P).VertexComponentCount ∧
      (CubeTriangleData (CubeTriangleDesc P) vb ib).PrimitiveCount =
        (CubeTriangleDesc P).MaxPrimitiveCount ∧
      (CubeTriangleData (CubeTriangleDesc P) vb ib).IndexType =
        (CubeTriangleDesc P).IndexType ∧
      (CubeTriangleDesc P).MaxPrimitiveCount = P.CubeGeoInfo.NumIndices / 3 ∧
      (CubeTriangleData (CubeTriangleDesc P) vb ib).VertexStride = 12 ∧
      (CubeTriangleData (CubeTriangleDesc P) vb ib).VertexStride =
        (CubeTriangleData (CubeTriangleDesc P) vb ib).VertexComponentCount *
          valueSize (CubeTriangleData (CubeTriangleDesc P) vb ib).VertexValueType := by
  obtain ⟨cb, cab, bab, bpso, bsrb, rpso, rsrb, cube, proc, tlas, scratch, instb, sbt, rt,
    depth, time, mr, log, nh⟩ := s
  cases rsrb with
  | none => simp at hR
  | some srb =>
    refine ⟨by simp [CreateCubeBLAS, Outcome.ok, State.emit, State.fresh], nh + 1, nh + 1 + 1, nh + 1 + 1 + 1,
      ⟨nh + 1 + 1 + 1 + 1, ⟨"BLAS Scratch Buffer", P.blasScratch.Build⟩⟩, ?_, ?_, ?_,
      rfl, rfl, rfl, rfl, rfl, rfl, rfl, rfl, ?_⟩
    · simp [CreateCubeBLAS, Outcome.ok, State.emit, State.fresh, createdBLAS,
        List.filterMap_append]
    · simp [CreateCubeBLAS, Outcome.ok, State.emit, State.fresh, buildBLASCalls,
        List.filterMap_append]
    · simp [CreateCubeBLAS, Outcome.ok, State.emit, State.fresh]
    · simp [CubeTriangleData, CubeTriangleDesc, valueSize]

/-- C17 on the sample platform (a cube of 24 vertices and 36 indices). -/
theorem C17_cube_build_matches_descriptor_witness :
    samplePipelineState.m_pRayTracingSRB.isSome = true ∧
    (CreateCubeBLAS samplePlatform samplePipelineState).fault = none ∧
    (CubeTriangleDesc samplePlatform).MaxPrimitiveCount = 12 :=
  ⟨rfl, (C17_cube_build_matches_descriptor samplePlatform samplePipelineState rfl).1, rfl⟩

/-- C18 as stated fails: with a requested depth of 256 on a device that reports a
maximum of 256, `Initialize` succeeds and leaves `m_Constants.MaxRecursion = 6`, but
the pipeline was created with `MaxRecursionDepth = 0`, the `Uint8` cast of 256; 6 is
not at most 0. -/
theorem C18_cast_truncates_pipeline_depth :
    standaloneShadersMissing deepPlatform = false ∧
    (Initialize deepPlatform (State.start (FExpr.lit 0) 256)).fault = none ∧
    (Initialize deepPlatform (State.start (FExpr.lit 0) 256)).state.m_MaxRecursionDepth = 256 ∧
    (Initialize deepPlatform (State.start (FExpr.lit 0) 256)).state.m_Constants_MaxRecursion =
      6 ∧
    pipelineDepths (Initialize deepPlatform (State.start (FExpr.lit 0) 256)).state.log = [0] ∧
    ¬ (6 ≤ 0) := by
  decide

/-- C18, amended: after `Initialize` of the freshly constructed object on a device
with standalone shaders, `m_Constants.MaxRecursion` is `min(6, effective depth)`,
where the effective depth is `m_MaxRecursionDepth` as `CreateRayTracingPSO` clamped
it, `min(requested, device maximum)`; so `m_Constants.MaxRecursion` is at most the
effective depth, which is at most the device maximum.  The pipeline stores the
effective depth modulo 256; when the effective depth is below 256 that is the
effective depth itself, and then `m_Constants.MaxRecursion` is at most the pipeline
depth, which is at most the device maximum. -/
theorem C18_shader_recursion_limit {F M : Type} (P : Platform F M) (time : F) (depth : Nat)
    (hS : standaloneShadersMissing P = false) :
    (Initialize P (State.start time depth)).fault = none ∧
    (Initialize P (State.start time depth)).state.m_MaxRecursionDepth =
      min depth P.DeviceMaxRecursionDepth ∧
    (Initialize P (State.start time depth)).state.m_Constants_MaxRecursion =
      min 6 (Initialize P (State.start time depth)).state.m_MaxRecursionDepth ∧
    pipelineDepths (Initialize P (State.start time depth)).state.log =
      [(Initialize P (State.start time depth)).state.m_MaxRecursionDepth % 256] ∧
    (Initialize P (State.start time depth)).state.m_Constants_MaxRecursion ≤
      (Initialize P (State.start time depth)).state.m_MaxRecursionDepth ∧
    (Initialize P (State.start time depth)).state.m_MaxRecursionDepth ≤
      P.DeviceMaxRecursionDepth ∧
    ((Initialize P (State.start time depth)).state.m_MaxRecursionDepth < 256 →
      ∃ pipelineDepth,
        pipelineDepths (Initialize P (State.start time depth)).state.log = [pipelineDepth] ∧
        (Initialize P (State.start time depth)).state.m_Constants_MaxRecursion ≤ pipelineDepth ∧
        pipelineDepth ≤ P.DeviceMaxRecursionDepth) := by
  obtain ⟨i₁, -, i₃, i₄, i₅, -⟩ := Initialize_spec P (State.start time depth) hS rfl
  have e : (State.start time depth : State F M).m_MaxRecursionDepth = depth := rfl
  have d : pipelineDepths (State.start time depth : State F M).log = [] := rfl
  rw [e] at i₃ i₄ i₅
  rw [d, List.nil_append] at i₃
  rw [i₄, i₅, i₃]
  refine ⟨i₁, rfl, rfl, rfl, Nat.min_le_right _ _, Nat.min_le_right _ _, ?_⟩
  intro hlt
  refine ⟨min depth P.DeviceMaxRecursionDepth, ?_, Nat.min_le_right _ _, Nat.min_le_right _ _⟩
  rw [Nat.mod_eq_of_lt hlt]

/-- C18 (amended) on the sample platform: requested 8, device maximum 31. -/
theorem C18_shader_recursion_limit_witness :
    standaloneShadersMissing samplePlatform = false ∧
    (Initialize samplePlatform (State.start (FExpr.lit 0) 8)).state.m_MaxRecursionDepth < 256 ∧
    (Initialize samplePlatform (State.start (FExpr.lit 0) 8)).state.m_Constants_MaxRecursion =
      min 6 (Initialize samplePlatform (State.start (FExpr.lit 0) 8)).state.m_MaxRecursionDepth :=
  ⟨by decide, by decide,
    (C18_shader_recursion_limit samplePlatform (FExpr.lit 0) 8 (by decide)).2.2.1⟩


end Tutorial21
